import Mathlib

/-!
Expense tracker: the expense lifecycle engine.

A shallow embedding of `internal/model`, `internal/repository`,
`internal/services`, `internal/utils` (tokens) and `internal/handler` of the
Go program (the expense side and the login), followed by the properties
proved about it.

Conventions of the embedding

* Go `int` is `Int`; the program never does arithmetic on ids, it only
  compares them with `0` and passes them on.
* Go `float64` is `Float64` below: the finite values (every finite double is a
  rational number), the two infinities and NaN, with the IEEE comparison. The
  program never does arithmetic on amounts either; negative zero is identified
  with zero, which no comparison can tell apart.
* Go `error` is `Option GoError` (`none` is `nil`); a Go result pair
  `(*T, error)` is `Except GoError T`.
* The repository is the interface `ExpenseRepository`; the services take it as
  a parameter, as `ExpenseService` holds it in a field. State is passed
  explicitly: each repository method maps a store state to a result and the
  next store state.
* `NewExpenseRepository` is the repository of the program: its five SQL
  statements run on the table `expenses`, with a database that answers every
  statement. Failures of the database (connection, timeout) are covered by the
  properties stated for an arbitrary `ExpenseRepository`.
* `recording r` is `r` with a log of the calls it receives; "the store is not
  called" is stated as "the log is unchanged".
* `expenseRepository.over pool` is the repository of the program over a pool
  whose statements may fail in the driver; over a pool without failures it is
  `NewExpenseRepository`.
* Tokens are the decoded form of a token string; the HMAC and the encoding of
  the segments are the parameter `TokenCodec`. The functions
  `utils.CheckPassword` and the rendering of an operand by `fmt` under an
  unknown verb are parameters as well.
* Contexts, timeouts and logging (`slog`) have no effect on results and are
  left out.
-/

namespace ExpenseTracker

/-! ## Values -/

/-- Go `float64`: finite values, the infinities (`neg = true` is minus
infinity) and NaN. -/
inductive Float64 where
  | fin (q : ℚ)
  | inf (neg : Bool)
  | nan
  deriving DecidableEq

namespace Float64

/-- The constant `0`. -/
def zero : Float64 := .fin 0

/-- IEEE `a <= b`: false as soon as one side is NaN. -/
def le : Float64 → Float64 → Bool
  | .nan, _ => false
  | _, .nan => false
  | .inf true, _ => true
  | _, .inf false => true
  | .inf false, _ => false
  | _, .inf true => false
  | .fin a, .fin b => decide (a ≤ b)

/-- IEEE `a < b`: false as soon as one side is NaN. -/
def lt : Float64 → Float64 → Bool
  | .nan, _ => false
  | _, .nan => false
  | .inf true, .inf true => false
  | .inf true, _ => true
  | .inf false, _ => false
  | _, .inf false => true
  | _, .inf true => false
  | .fin a, .fin b => decide (a < b)

end Float64

/-- Errors, as far as the program can tell them apart: the two sentinels it
tests with `errors.Is`, a fresh `errors.New(text)`, a wrapping
`fmt.Errorf(pre + "%w", inner)`, and any other failure reported by the
database driver, of which only the text is kept. -/
inductive GoError where
  /-- The sentinel `pgx.ErrNoRows` of the driver. -/
  | ErrNoRows
  /-- The sentinel `ErrExpenseNotFound = errors.New("expense not found")`. -/
  | ErrExpenseNotFound
  /-- A fresh `errors.New(text)`. -/
  | new (text : String)
  /-- The value of `fmt.Errorf(pre + "%w", inner)`. -/
  | wrap (pre : String) (inner : GoError)
  /-- A driver failure other than "no rows" (connection, constraint, scan). -/
  | driver (text : String)
  deriving DecidableEq

namespace GoError

/-- The method `Error()`. -/
def Error : GoError → String
  | .ErrNoRows => "no rows in result set"
  | .ErrExpenseNotFound => "expense not found"
  | .new text => text
  | .wrap pre inner => pre ++ inner.Error
  | .driver text => text

/-- `errors.Is(err, pgx.ErrNoRows)`: the sentinel is somewhere on the chain of
wrapped errors. -/
def IsErrNoRows : GoError → Bool
  | .ErrNoRows => true
  | .wrap _ inner => inner.IsErrNoRows
  | _ => false

/-- `errors.Is(err, services.ErrExpenseNotFound)`. -/
def IsErrExpenseNotFound : GoError → Bool
  | .ErrExpenseNotFound => true
  | .wrap _ inner => inner.IsErrExpenseNotFound
  | _ => false

end GoError

/-! ## `internal/model` -/

/-- The struct `model.Expense`; `CreatedAt` is a point on the clock of the store. -/
structure Expense where
  ID : Int
  UserID : Int
  Amount : Float64
  Category : String
  CreatedAt : Nat
  deriving DecidableEq

/-! ## `internal/repository` -/

/-- The interface `repository.ExpenseRepository` over a store state `σ`. -/
structure ExpenseRepository (σ : Type) where
  CreateExpense : Int → Float64 → String → σ → Except GoError Expense × σ
  GetAllExpense : Int → σ → Except GoError (List Expense) × σ
  GetExpenseByID : Int → Int → σ → Except GoError Expense × σ
  UpdateExpense : Int → Int → Float64 → String → σ → Except GoError Expense × σ
  DeleteExpense : Int → Int → σ → Option GoError × σ

/-- One call of a repository method, with its arguments. -/
inductive StoreCall where
  | CreateExpense (userID : Int) (amount : Float64) (category : String)
  | GetAllExpense (userID : Int)
  | GetExpenseByID (expenseID userID : Int)
  | UpdateExpense (expenseID userID : Int) (amount : Float64) (category : String)
  | DeleteExpense (expenseID userID : Int)
  deriving DecidableEq

/-- A repository that behaves as `r` and appends every call it receives to a
log kept next to the store state. -/
def recording {σ : Type} (r : ExpenseRepository σ) : ExpenseRepository (σ × List StoreCall) where
  CreateExpense userID amount category := fun st =>
    ((r.CreateExpense userID amount category st.1).1,
      ((r.CreateExpense userID amount category st.1).2,
        st.2 ++ [StoreCall.CreateExpense userID amount category]))
  GetAllExpense userID := fun st =>
    ((r.GetAllExpense userID st.1).1,
      ((r.GetAllExpense userID st.1).2, st.2 ++ [StoreCall.GetAllExpense userID]))
  GetExpenseByID expenseID userID := fun st =>
    ((r.GetExpenseByID expenseID userID st.1).1,
      ((r.GetExpenseByID expenseID userID st.1).2,
        st.2 ++ [StoreCall.GetExpenseByID expenseID userID]))
  UpdateExpense expenseID userID amount category := fun st =>
    ((r.UpdateExpense expenseID userID amount category st.1).1,
      ((r.UpdateExpense expenseID userID amount category st.1).2,
        st.2 ++ [StoreCall.UpdateExpense expenseID userID amount category]))
  DeleteExpense expenseID userID := fun st =>
    ((r.DeleteExpense expenseID userID st.1).1,
      ((r.DeleteExpense expenseID userID st.1).2,
        st.2 ++ [StoreCall.DeleteExpense expenseID userID]))

/-- Modelled from the spec: the declaration of the table `expenses` is not
among the sources. The spec gives its columns `expenses(id, user_id, amount,
category, created_at)` and a store-assigned identifier unique within the
system; so the state is the rows in insertion order, the last value handed out
by the sequence of the `id` column (counting up from 1, with a uniqueness
constraint on `id`), and the clock that fills `created_at`; the other columns
hold the values as inserted. -/
structure DB where
  expenses : List Expense
  seq : Nat
  now : Nat
  deriving DecidableEq

/-- The condition `WHERE id = $1 AND user_id = $2`. -/
def whereIDAndUser (expenseID userID : Int) (e : Expense) : Bool :=
  decide (e.ID = expenseID ∧ e.UserID = userID)

/-- The uniqueness constraint on `id` holds in the table. -/
def DB.UniqueIDs (db : DB) : Prop :=
  db.expenses.Pairwise (fun a b => a.ID ≠ b.ID)

/-- The invariants the spec gives for the stored expenses: `amount > 0` and
a category that is not empty. -/
def DB.Valid (db : DB) : Prop :=
  ∀ e ∈ db.expenses, Float64.lt Float64.zero e.Amount = true ∧ e.Category ≠ ""

namespace expenseRepository

/-- The method `CreateExpense`: `INSERT INTO expenses(user_id, amount, category)
VALUES($1,$2,$3) RETURNING id, user_id, amount, category, created_at`. The
sequence advances even when the insert is refused by the uniqueness
constraint. -/
def CreateExpense (userID : Int) (amount : Float64) (category : String) (db : DB) :
    Except GoError Expense × DB :=
  let expense : Expense :=
    { ID := (db.seq : Int) + 1, UserID := userID, Amount := amount, Category := category,
      CreatedAt := db.now }
  if db.expenses.any (fun e => decide (e.ID = expense.ID)) then
    (.error (.driver "duplicate key value violates unique constraint"),
      { db with seq := db.seq + 1 })
  else
    (.ok expense, { db with expenses := db.expenses ++ [expense], seq := db.seq + 1 })

/-- Insertion of `e` into a list ordered by `created_at DESC`. -/
def insertByCreatedAtDesc (e : Expense) : List Expense → List Expense
  | [] => [e]
  | x :: xs => if x.CreatedAt < e.CreatedAt then e :: x :: xs else x :: insertByCreatedAtDesc e xs

/-- The method `GetAllExpense`: `SELECT ... FROM expenses WHERE user_id = $1
ORDER BY created_at DESC`. -/
def GetAllExpense (userID : Int) (db : DB) : Except GoError (List Expense) × DB :=
  (.ok ((db.expenses.filter (fun e => decide (e.UserID = userID))).foldr
      insertByCreatedAtDesc []), db)

/-- The method `GetExpenseByID`: `SELECT ... FROM expenses WHERE id = $1 AND
user_id = $2`; scanning an empty result is `pgx.ErrNoRows`. -/
def GetExpenseByID (expenseID userID : Int) (db : DB) : Except GoError Expense × DB :=
  match db.expenses.find? (whereIDAndUser expenseID userID) with
  | some expense => (.ok expense, db)
  | none => (.error .ErrNoRows, db)

/-- The row written by `SET amount = $1, category = $2`. -/
def setAmountCategory (amount : Float64) (category : String) (e : Expense) : Expense :=
  { e with Amount := amount, Category := category }

/-- The method `UpdateExpense`: `UPDATE expenses SET amount = $1, category = $2
WHERE id = $3 AND user_id = $4 RETURNING ...`; any scan error, an empty result
included, is replaced by `errors.New("failed to update expense")`. -/
def UpdateExpense (expenseID userID : Int) (amount : Float64) (category : String) (db : DB) :
    Except GoError Expense × DB :=
  let rows := db.expenses.map (fun e =>
    if whereIDAndUser expenseID userID e then setAmountCategory amount category e else e)
  match rows.find? (whereIDAndUser expenseID userID) with
  | some expense => (.ok expense, { db with expenses := rows })
  | none => (.error (.new "failed to update expense"), db)

/-- The method `DeleteExpense`: `DELETE FROM expenses WHERE id = $1 AND
user_id = $2`, run with `Exec`, whose command tag (the number of rows
deleted) is discarded. -/
def DeleteExpense (expenseID userID : Int) (db : DB) : Option GoError × DB :=
  (none, { db with expenses := db.expenses.filter (fun e => !whereIDAndUser expenseID userID e) })

end expenseRepository

/-- The constructor `NewExpenseRepository`: the repository backed by the
table, with a database that answers every statement. -/
def NewExpenseRepository : ExpenseRepository DB where
  CreateExpense := expenseRepository.CreateExpense
  GetAllExpense := expenseRepository.GetAllExpense
  GetExpenseByID := expenseRepository.GetExpenseByID
  UpdateExpense := expenseRepository.UpdateExpense
  DeleteExpense := expenseRepository.DeleteExpense

/-- The connection pool as the repository uses it: for each of its five
statements, what running the statement and scanning its result gives, an
error of the driver or the rows, and the next state of the database. -/
structure Pool (σ : Type) where
  insertExpense : Int → Float64 → String → σ → Except GoError Expense × σ
  selectExpenses : Int → σ → Except GoError (List Expense) × σ
  selectExpense : Int → Int → σ → Except GoError Expense × σ
  updateExpense : Int → Int → Float64 → String → σ → Except GoError Expense × σ
  deleteExpense : Int → Int → σ → Option GoError × σ

/-- The methods of `expenseRepository` over a pool, with the treatment each
gives to an error: `CreateExpense`, `GetAllExpense` and `GetExpenseByID`
return it as it is, `UpdateExpense` logs it and returns
`errors.New("failed to update expense")` in its place, `DeleteExpense` wraps
it. -/
def expenseRepository.over {σ : Type} (pool : Pool σ) : ExpenseRepository σ where
  CreateExpense userID amount category := fun s =>
    match pool.insertExpense userID amount category s with
    | (.error err, s1) => (.error err, s1)
    | (.ok expense, s1) => (.ok expense, s1)
  GetAllExpense userID := fun s =>
    match pool.selectExpenses userID s with
    | (.error err, s1) => (.error err, s1)
    | (.ok expenses, s1) => (.ok expenses, s1)
  GetExpenseByID expenseID userID := fun s =>
    match pool.selectExpense expenseID userID s with
    | (.error err, s1) => (.error err, s1)
    | (.ok expense, s1) => (.ok expense, s1)
  UpdateExpense expenseID userID amount category := fun s =>
    match pool.updateExpense expenseID userID amount category s with
    | (.error _, s1) => (.error (.new "failed to update expense"), s1)
    | (.ok expense, s1) => (.ok expense, s1)
  DeleteExpense expenseID userID := fun s =>
    match pool.deleteExpense expenseID userID s with
    | (some err, s1) => (some (.wrap "unable to delete expense " err), s1)
    | (none, s1) => (none, s1)

/-- A pool on the table in which the statements named by `fault` fail in the
driver with the text `fault` gives, leaving the table as it is, and the other
statements run as in `NewExpenseRepository`, the scan of an `UPDATE` that
returns no row giving `pgx.ErrNoRows`. -/
def faultyPool (fault : StoreCall → Option String) : Pool DB where
  insertExpense userID amount category := fun db =>
    match fault (.CreateExpense userID amount category) with
    | some text => (.error (.driver text), db)
    | none => expenseRepository.CreateExpense userID amount category db
  selectExpenses userID := fun db =>
    match fault (.GetAllExpense userID) with
    | some text => (.error (.driver text), db)
    | none => expenseRepository.GetAllExpense userID db
  selectExpense expenseID userID := fun db =>
    match fault (.GetExpenseByID expenseID userID) with
    | some text => (.error (.driver text), db)
    | none => expenseRepository.GetExpenseByID expenseID userID db
  updateExpense expenseID userID amount category := fun db =>
    match fault (.UpdateExpense expenseID userID amount category) with
    | some text => (.error (.driver text), db)
    | none =>
      match expenseRepository.UpdateExpense expenseID userID amount category db with
      | (.error _, db1) => (.error .ErrNoRows, db1)
      | (.ok expense, db1) => (.ok expense, db1)
  deleteExpense expenseID userID := fun db =>
    match fault (.DeleteExpense expenseID userID) with
    | some text => (some (.driver text), db)
    | none => expenseRepository.DeleteExpense expenseID userID db

/-- Two outcomes of a statement are the same, or both are failures of the
driver that leave the same state and differ in their text only. -/
def sameUpToText {α σ : Type} (o1 o2 : Except GoError α × σ) : Prop :=
  o1 = o2 ∨ ∃ text1 text2 s, o1 = (.error (.driver text1), s) ∧ o2 = (.error (.driver text2), s)

/-- The relation `sameUpToText` for a statement without result rows. -/
def sameUpToTextExec {σ : Type} (o1 o2 : Option GoError × σ) : Prop :=
  o1 = o2 ∨ ∃ text1 text2 s, o1 = (some (.driver text1), s) ∧ o2 = (some (.driver text2), s)

/-- Two pools answer every statement alike, up to the text of the failures of
the driver. -/
def Pool.sameUpToText {σ : Type} (p1 p2 : Pool σ) : Prop :=
  (∀ userID amount category s,
      ExpenseTracker.sameUpToText (p1.insertExpense userID amount category s)
        (p2.insertExpense userID amount category s))
  ∧ (∀ userID s,
      ExpenseTracker.sameUpToText (p1.selectExpenses userID s) (p2.selectExpenses userID s))
  ∧ (∀ expenseID userID s,
      ExpenseTracker.sameUpToText (p1.selectExpense expenseID userID s)
        (p2.selectExpense expenseID userID s))
  ∧ (∀ expenseID userID amount category s,
      ExpenseTracker.sameUpToText (p1.updateExpense expenseID userID amount category s)
        (p2.updateExpense expenseID userID amount category s))
  ∧ (∀ expenseID userID s,
      sameUpToTextExec (p1.deleteExpense expenseID userID s)
        (p2.deleteExpense expenseID userID s))

/-! ## `internal/services` -/

/-- The struct `services.UpdateExpenseInput`: a nil pointer is `none`. -/
structure UpdateExpenseInput where
  Amount : Option Float64
  Category : Option String
  deriving DecidableEq

/-- The method `ValidatePrice`. -/
def ValidatePrice (amount : Float64) : Option GoError :=
  if Float64.le amount Float64.zero then
    some (.new "amount must be greater than 0")
  else none

/-- The method `validateCategory`. -/
def validateCategory (category : String) : Option GoError :=
  if category = " " then
    some (.new "category is required")
  else none

/-- The method `AddExpenseService`. -/
def AddExpenseService {σ : Type} (r : ExpenseRepository σ) (userID : Int) (amount : Float64)
    (category : String) (s : σ) : Except GoError Expense × σ :=
  match ValidatePrice amount with
  | some err => (.error err, s)
  | none =>
    match validateCategory category with
    | some err => (.error err, s)
    | none =>
      match r.CreateExpense userID amount category s with
      | (.error err, s1) => (.error err, s1)
      | (.ok expense, s1) => (.ok expense, s1)

/-- The method `GetAllExpenseService`. Its `fmt.Errorf` uses the verb `%W`,
which `fmt` does not know: the error is not wrapped, and the text holds
`%!W(` followed by the dynamic type and the value of the operand as `fmt`
prints them, here the parameter `typeAndValue`, and `)`. -/
def GetAllExpenseService {σ : Type} (r : ExpenseRepository σ) (typeAndValue : GoError → String)
    (userID : Int) (s : σ) : Except GoError (List Expense) × σ :=
  match r.GetAllExpense userID s with
  | (.error err, s1) =>
    (.error (.new ("failed to fetch expenses: %!W(" ++ typeAndValue err ++ ")")), s1)
  | (.ok expenses, s1) => (.ok expenses, s1)

/-- The method `GetExpenseByIDService`. -/
def GetExpenseByIDService {σ : Type} (r : ExpenseRepository σ) (expenseId userID : Int) (s : σ) :
    Except GoError Expense × σ :=
  if expenseId ≤ 0 ∨ userID ≤ 0 then
    (.error (.new "invalid id"), s)
  else
    match r.GetExpenseByID expenseId userID s with
    | (.error err, s1) =>
      if err.IsErrNoRows then (.error .ErrExpenseNotFound, s1)
      else (.error (.new "failed to fetch expense"), s1)
    | (.ok expense, s1) => (.ok expense, s1)

/-- The two overlay steps of `UpdateExpenseService`: each present field is
checked and then written into the fetched copy, the amount first. -/
def overlayInput (input : UpdateExpenseInput) (existing : Expense) : Except GoError Expense :=
  let afterAmount : Except GoError Expense :=
    match input.Amount with
    | some amount =>
      if Float64.le amount Float64.zero then .error (.new "amount must be greater than 0")
      else .ok { existing with Amount := amount }
    | none => .ok existing
  match afterAmount with
  | .error err => .error err
  | .ok existing1 =>
    match input.Category with
    | some category =>
      if category = "" then .error (.new "category can not be empty")
      else .ok { existing1 with Category := category }
    | none => .ok existing1

/-- The method `UpdateExpenseService`. -/
def UpdateExpenseService {σ : Type} (r : ExpenseRepository σ) (expenseID userID : Int)
    (input : UpdateExpenseInput) (s : σ) : Except GoError Expense × σ :=
  if expenseID ≤ 0 ∨ userID ≤ 0 then
    (.error (.new "invalid ID"), s)
  else
    match r.GetExpenseByID expenseID userID s with
    | (.error err, s1) =>
      if err.IsErrNoRows then (.error .ErrExpenseNotFound, s1)
      else (.error (.new "failed to fetch expense"), s1)
    | (.ok existing, s1) =>
      match overlayInput input existing with
      | .error err => (.error err, s1)
      | .ok merged =>
        match r.UpdateExpense expenseID userID merged.Amount merged.Category s1 with
        | (.error err, s2) => (.error (.wrap "failed to update expense: " err), s2)
        | (.ok updatedExpense, s2) => (.ok updatedExpense, s2)

/-- The method `DeleteExpenseService`. -/
def DeleteExpenseService {σ : Type} (r : ExpenseRepository σ) (expenseID userID : Int) (s : σ) :
    Option GoError × σ :=
  if expenseID ≤ 0 ∨ userID ≤ 0 then
    (some (.new "invalid id"), s)
  else
    match r.GetExpenseByID expenseID userID s with
    | (.error err, s1) =>
      if err.IsErrNoRows then (some .ErrExpenseNotFound, s1)
      else (some (.wrap "failed to fetch expense " err), s1)
    | (.ok existing, s1) =>
      match r.DeleteExpense existing.ID existing.UserID s1 with
      | (some err, s2) => (some (.wrap "failed to delete expense " err), s2)
      | (none, s2) => (none, s2)

/-! ## The user side: `internal/repository`, `internal/services` -/

/-- Modelled from the spec: the declaration of the struct `model.User` is not
among the sources. The spec gives a user a unique email, a password hash and a
creation timestamp, and the program reads the fields `ID`, `Email`,
`PasswordHash` and `CreatedAt`. -/
structure User where
  ID : Int
  Email : String
  PasswordHash : String
  CreatedAt : Nat
  deriving DecidableEq

/-- The interface `repository.UserRepository` over a store state `σ`. -/
structure UserRepository (σ : Type) where
  CreateUser : String → String → σ → Except GoError User × σ
  LogInUser : String → σ → Except GoError User × σ
  GetUser : Int → σ → Except GoError User × σ

/-- Modelled from the spec: the declaration of the table `users` is not among
the sources. The spec gives its columns `users(id, email unique,
password_hash, created_at)`; the state is the rows in insertion order, the
last value handed out by the sequence of the `id` column, and the clock that
fills `created_at`. -/
structure UserDB where
  users : List User
  seq : Nat
  now : Nat
  deriving DecidableEq

namespace userRepository

/-- The method `CreateUser`: `INSERT INTO users (email, password_hash)
VALUES($1, $2) RETURNING id, email, created_at`; the hash is stored, the
struct returned does not carry it. -/
def CreateUser (email passwordHash : String) (db : UserDB) : Except GoError User × UserDB :=
  if db.users.any (fun u => decide (u.Email = email) || decide (u.ID = (db.seq : Int) + 1)) then
    (.error (.driver "duplicate key value violates unique constraint"),
      { db with seq := db.seq + 1 })
  else
    (.ok { ID := (db.seq : Int) + 1, Email := email, PasswordHash := "", CreatedAt := db.now },
      { db with
        users := db.users ++
          [{ ID := (db.seq : Int) + 1, Email := email, PasswordHash := passwordHash,
             CreatedAt := db.now }],
        seq := db.seq + 1 })

/-- The method `LogInUser`: `SELECT id, email, password_hash, created_at FROM
users WHERE email = $1`. -/
def LogInUser (email : String) (db : UserDB) : Except GoError User × UserDB :=
  match db.users.find? (fun u => decide (u.Email = email)) with
  | some user => (.ok user, db)
  | none => (.error .ErrNoRows, db)

/-- The method `GetUser`: `SELECT id, email, created_at FROM users WHERE
id = $1`. -/
def GetUser (id : Int) (db : UserDB) : Except GoError User × UserDB :=
  match db.users.find? (fun u => decide (u.ID = id)) with
  | some user => (.ok { user with PasswordHash := "" }, db)
  | none => (.error .ErrNoRows, db)

end userRepository

/-- The constructor `NewUserRepository`: the repository backed by the table,
with a database that answers every statement. -/
def NewUserRepository : UserRepository UserDB where
  CreateUser := userRepository.CreateUser
  LogInUser := userRepository.LogInUser
  GetUser := userRepository.GetUser

/-- The method `validateLoginEmail`. -/
def validateLoginEmail (email : String) : Option GoError :=
  if email = "" then some (.new "invalid email id") else none

/-- The method `LogInUserService`. The function `utils.CheckPassword` is not
among the sources; it is the parameter `CheckPassword`, applied to the
password and to the stored hash. -/
def LogInUserService {σ : Type} (r : UserRepository σ)
    (CheckPassword : String → String → Option GoError) (email password : String) (s : σ) :
    Except GoError User × σ :=
  match validateLoginEmail email with
  | some err => (.error err, s)
  | none =>
    match r.LogInUser email s with
    | (.error err, s1) =>
      if err.IsErrNoRows then (.error (.new "no user found"), s1)
      else (.error err, s1)
    | (.ok user, s1) =>
      match CheckPassword password user.PasswordHash with
      | some _ => (.error (.new "incorrect password"), s1)
      | none => (.ok user, s1)

/-! ## `internal/utils`: tokens -/

/-- The hash functions of the HMAC signing methods. -/
inductive Hash where
  | SHA256
  | SHA384
  | SHA512
  deriving DecidableEq

/-- The two functions of the libraries the embedding leaves open: `hmac hash
key message` is the HMAC of `crypto/hmac`, and `segments alg userID exp` is
the text of the first two segments of a token, the encoded header and claims,
which is what gets signed. -/
structure TokenCodec where
  hmac : Hash → String → String → String
  segments : String → Int → Nat → String

/-- The signing methods registered by the library `golang-jwt`: the HMAC
methods `HS256`, `HS384`, `HS512`, the methods verified with a public key
(`RS…`, `PS…`, `ES…`, `EdDSA`), and `none`. -/
inductive SigningMethod where
  | HMAC (hash : Hash)
  | publicKey
  | unsecured
  deriving DecidableEq

/-- The library function `jwt.GetSigningMethod`. -/
def GetSigningMethod (alg : String) : Option SigningMethod :=
  if alg = "HS256" then some (.HMAC .SHA256)
  else if alg = "HS384" then some (.HMAC .SHA384)
  else if alg = "HS512" then some (.HMAC .SHA512)
  else if alg ∈ ["RS256", "RS384", "RS512", "PS256", "PS384", "PS512", "ES256", "ES384",
      "ES512", "EdDSA"] then some .publicKey
  else if alg = "none" then some .unsecured
  else none

/-- A token string that splits into three segments which decode, as
`Parser.ParseUnverified` reads it: the `alg` entry of the header when it is a
string, the claims `user_id` and `exp` when present, the text of the first
two segments, and the signature. Strings that do not split or decode are
refused by the library before the key function is asked; tokens are taken to
carry no other registered claim (`nbf`, `iat`, ...) for the library to
check. -/
structure Token where
  alg : Option String
  user_id : Option Int
  exp : Option Nat
  signingString : String
  Signature : String
  deriving DecidableEq

/-- The library method `Verify` of a signing method, for a key that is a byte
slice: an HMAC method compares the signature with the HMAC of the signing
string under the key; the other methods refuse a byte slice as key. -/
def SigningMethod.Verify (c : TokenCodec) (m : SigningMethod)
    (signingString sig key : String) : Option GoError :=
  match m with
  | .HMAC hash =>
    if sig = c.hmac hash key signingString then none else some (.new "signature is invalid")
  | .publicKey => some (.new "key is of invalid type")
  | .unsecured => some (.new "none signature type is not allowed")

/-- The library function `jwt.Parse` without parser options, for a key
function that returns a byte slice: the method is looked up from the header,
the key function is asked for the key, the signature is verified, and the
claim `exp`, when present, must lie after `now`. The error carries the text
of the sentinel of the library, then the cause. -/
def Parse (c : TokenCodec) (now : Nat) (t : Token) (keyFunc : Token → Except GoError String) :
    Except GoError Token :=
  match t.alg with
  | none => .error (.new "token is unverifiable: signing method (alg) is unspecified")
  | some alg =>
    match GetSigningMethod alg with
    | none => .error (.new "token is unverifiable: signing method (alg) is unavailable")
    | some method =>
      match keyFunc t with
      | .error err => .error (.wrap "token is unverifiable: error while executing keyfunc: " err)
      | .ok key =>
        match method.Verify c t.signingString t.Signature key with
        | some err => .error (.wrap "token signature is invalid: " err)
        | none =>
          match t.exp with
          | some exp =>
            if now < exp then .ok t
            else .error (.new "token has invalid claims: token is expired")
          | none => .ok t

/-- The function `GenerateToken`; `secret` is the value of `GetSecretKey()`
and `now` the value of `time.Now().Unix()`, in seconds. -/
def GenerateToken (c : TokenCodec) (secret : String) (now : Nat) (userID : Int) :
    Except GoError Token :=
  .ok { alg := some "HS256", user_id := some userID, exp := some (now + 24 * 3600),
        signingString := c.segments "HS256" userID (now + 24 * 3600),
        Signature := c.hmac .SHA256 secret (c.segments "HS256" userID (now + 24 * 3600)) }

/-- The key function `ValidateToken` hands to `jwt.Parse`:
`func(t *jwt.Token) (interface{}, error) { return GetSecretKey(), nil }`. -/
def keyFunc (secret : String) (_t : Token) : Except GoError String :=
  .ok secret

/-- The function `ValidateToken`; a token returned by `jwt.Parse` without
error has `Valid` set. -/
def ValidateToken (c : TokenCodec) (secret : String) (now : Nat) (tokenStr : Token) :
    Except GoError Token :=
  match Parse c now tokenStr (keyFunc secret) with
  | .error err => .error err
  | .ok token => .ok token

/-- A codec to evaluate the token functions on: the stand-in for the HMAC
writes the hash, the key and the message side by side, the stand-in for the
segments writes the header and the claims side by side. -/
def sampleCodec : TokenCodec where
  hmac hash key message :=
    (match hash with
      | .SHA256 => "sha256"
      | .SHA384 => "sha384"
      | .SHA512 => "sha512") ++ "/" ++ key ++ "/" ++ message
  segments alg userID exp := alg ++ "." ++ toString userID ++ "." ++ toString exp

/-! ## `internal/handler` -/

/-- The library function `strconv.Atoi` on a 64-bit platform: an optional
sign, then one or more decimal digits and nothing else, the value within the
range of `int`. -/
def Atoi (s : String) : Option Int :=
  let digits : List Char :=
    match s.toList with
    | '-' :: rest => rest
    | '+' :: rest => rest
    | all => all
  if digits = [] ∨ !digits.all Char.isDigit then none
  else
    let n : Int := ((digits.foldl (fun acc ch => 10 * acc + (ch.toNat - 48)) 0 : Nat) : Int)
    let v : Int := if s.toList.head? = some '-' then -n else n
    if v < -9223372036854775808 ∨ 9223372036854775807 < v then none else some v

/-- What `c.Get("user_id")` can hold: the `int` put there by the
authentication middleware, or a value of another type. -/
inductive CtxValue where
  | int (n : Int)
  | other
  deriving DecidableEq

/-- The type assertion `userID.(int)`. -/
def CtxValue.assertInt : CtxValue → Option Int
  | .int n => some n
  | .other => none

/-- The struct `handler.ExpenseRequest`. -/
structure ExpenseRequest where
  Amount : Float64
  Category : String
  deriving DecidableEq

/-- The outcome of `c.ShouldBindJSON(&input)` for an `ExpenseRequest`, `none`
when binding fails. `decoded` is the body as decoded from JSON, `none` when it
is not JSON of that shape, an absent field being the zero value; both fields
carry the tag `binding:"required"`, which refuses the zero value. -/
def bindExpenseRequest (decoded : Option ExpenseRequest) : Option ExpenseRequest :=
  match decoded with
  | none => none
  | some input => if input.Amount = .fin 0 ∨ input.Category = "" then none else some input

/-- The struct `handler.UpdateExpenseRequest`, as `ShouldBindJSON` fills it. -/
structure UpdateExpenseRequest where
  Amount : Option Float64
  Category : Option String
  deriving DecidableEq

/-- The JSON object written to the client. -/
inductive Payload where
  /-- The object `gin.H{"error": message}`. -/
  | error (message : String)
  /-- The object `gin.H{"expense": expense}`. -/
  | expense (expense : Expense)
  /-- The object `gin.H{"message": message}`. -/
  | message (message : String)
  /-- The object `gin.H{"id": ..., "amount": ..., "category": ..., "created_at": ...}`. -/
  | created (id : Int) (amount : Float64) (category : String) (createdAt : Nat)
  /-- The object `gin.H{"expenses": expenses}`. -/
  | expenses (expenses : List Expense)
  /-- The object `gin.H{"token": token, "user": gin.H{"id": ..., "email": ...}}`. -/
  | login (token : Token) (id : Int) (email : String)
  deriving DecidableEq

/-- An HTTP response: status code and body. -/
structure Response where
  status : Nat
  body : Payload
  deriving DecidableEq

/-- The function `utils.RespondError`. -/
def RespondError (status : Nat) (message : String) : Response :=
  { status := status, body := .error message }

/-- The method `AddExpenseHandler`; `userID` is the result of
`c.Get("user_id")` and `decoded` the request body as decoded from JSON. -/
def AddExpenseHandler {σ : Type} (r : ExpenseRepository σ) (userID : Option CtxValue)
    (decoded : Option ExpenseRequest) (s : σ) : Response × σ :=
  match userID with
  | none => (RespondError 401 "unauthorized", s)
  | some value =>
    match value.assertInt with
    | none => (RespondError 500 "internal server error", s)
    | some id =>
      match bindExpenseRequest decoded with
      | none => (RespondError 400 "invalid input", s)
      | some input =>
        match AddExpenseService r id input.Amount input.Category s with
        | (.error _, s1) => (RespondError 400 "invalid input", s1)
        | (.ok expense, s1) =>
          ({ status := 201,
             body := .created expense.ID expense.Amount expense.Category expense.CreatedAt }, s1)

/-- The method `GetAllExpenseHandler`. -/
def GetAllExpenseHandler {σ : Type} (r : ExpenseRepository σ) (typeAndValue : GoError → String)
    (userID : Option CtxValue) (s : σ) : Response × σ :=
  match userID with
  | none => (RespondError 401 "unauthorized", s)
  | some value =>
    match value.assertInt with
    | none => (RespondError 400 "invalid input", s)
    | some id =>
      if id ≤ 0 then (RespondError 400 "invalid input", s)
      else
        match GetAllExpenseService r typeAndValue id s with
        | (.error _, s1) => (RespondError 500 "internal server error", s1)
        | (.ok expenses, s1) => ({ status := 200, body := .expenses expenses }, s1)

/-- The method `GetExpenseByIDHandler`; `userID` is the result of
`c.Get("user_id")` and `idStr` the path parameter `id`. -/
def GetExpenseByIDHandler {σ : Type} (r : ExpenseRepository σ) (userID : Option CtxValue)
    (idStr : String) (s : σ) : Response × σ :=
  match userID with
  | none => (RespondError 401 "unauthorized", s)
  | some value =>
    match value.assertInt with
    | none => (RespondError 400 "invalid input", s)
    | some id =>
      if id ≤ 0 then (RespondError 400 "invalid input", s)
      else
        match Atoi idStr with
        | none => (RespondError 400 "invalid expense id", s)
        | some expenseID =>
          match GetExpenseByIDService r expenseID id s with
          | (.error err, s1) =>
            if err.IsErrExpenseNotFound then (RespondError 404 "expense not found", s1)
            else (RespondError 500 "internal server error", s1)
          | (.ok expense, s1) => ({ status := 200, body := .expense expense }, s1)

/-- The method `UpdateExpenseHandler`; `bound` is the outcome of
`c.ShouldBindJSON(&input)`, `none` when binding fails. -/
def UpdateExpenseHandler {σ : Type} (r : ExpenseRepository σ) (userID : Option CtxValue)
    (idStr : String) (bound : Option UpdateExpenseRequest) (s : σ) : Response × σ :=
  match userID with
  | none => (RespondError 401 "unauthorized", s)
  | some value =>
    match value.assertInt with
    | none => (RespondError 400 "invalid input", s)
    | some id =>
      if id ≤ 0 then (RespondError 400 "invalid input", s)
      else
        match Atoi idStr with
        | none => (RespondError 400 "invalid expense id", s)
        | some expenseID =>
          match bound with
          | none => (RespondError 400 "invalid input", s)
          | some input =>
            let serviceInput : UpdateExpenseInput :=
              { Amount := input.Amount, Category := input.Category }
            match UpdateExpenseService r expenseID id serviceInput s with
            | (.error err, s1) =>
              if err.IsErrExpenseNotFound then (RespondError 404 "expense not found", s1)
              else (RespondError 500 err.Error, s1)
            | (.ok updatedExpense, s1) => ({ status := 200, body := .expense updatedExpense }, s1)

/-- The method `DeleteExpenseHandler`. -/
def DeleteExpenseHandler {σ : Type} (r : ExpenseRepository σ) (userID : Option CtxValue)
    (idStr : String) (s : σ) : Response × σ :=
  match userID with
  | none => (RespondError 401 "unauthorized", s)
  | some value =>
    match value.assertInt with
    | none => (RespondError 400 "invalid input", s)
    | some id =>
      if id ≤ 0 then (RespondError 400 "invalid input", s)
      else
        match Atoi idStr with
        | none => (RespondError 400 "invalid expense id", s)
        | some expenseID =>
          match DeleteExpenseService r expenseID id s with
          | (some err, s1) =>
            if err.IsErrExpenseNotFound then (RespondError 404 "expense not found", s1)
            else (RespondError 500 "internal server error", s1)
          | (none, s1) => ({ status := 200, body := .message "expense deleted successfully" }, s1)

/-- The struct `handler.LogInRequest`, as `ShouldBindJSON` fills it. -/
structure LogInRequest where
  Email : String
  Password : String
  deriving DecidableEq

/-- The method `LogInUserHandler`; `bound` is the outcome of
`c.ShouldBindJSON(&input)`, `none` when binding fails. -/
def LogInUserHandler {σ : Type} (r : UserRepository σ)
    (CheckPassword : String → String → Option GoError) (c : TokenCodec) (secret : String)
    (now : Nat) (bound : Option LogInRequest) (s : σ) : Response × σ :=
  match bound with
  | none => (RespondError 400 "invalid input", s)
  | some input =>
    match LogInUserService r CheckPassword input.Email input.Password s with
    | (.error _, s1) => (RespondError 401 "invalid email or password", s1)
    | (.ok user, s1) =>
      match GenerateToken c secret now user.ID with
      | .error _ => (RespondError 500 "internal server error", s1)
      | .ok token => ({ status := 200, body := .login token user.ID user.Email }, s1)

/-! ## Properties -/

/-! ### Auxiliary facts -/

theorem Float64.le_zero_eq_false_of_pos (a : Float64) (h : Float64.lt Float64.zero a = true) :
    Float64.le a Float64.zero = false := by
  cases a with
  | fin q =>
    simp only [Float64.lt, Float64.zero, decide_eq_true_eq] at h
    simp [Float64.le, Float64.zero, h]
  | inf neg => cases neg <;> simp_all [Float64.lt, Float64.le, Float64.zero]
  | nan => simp [Float64.lt, Float64.zero] at h

theorem whereIDAndUser_setAmountCategory (expenseID userID : Int) (amount : Float64)
    (category : String) (e : Expense) :
    whereIDAndUser expenseID userID (expenseRepository.setAmountCategory amount category e)
      = whereIDAndUser expenseID userID e := by
  simp [whereIDAndUser, expenseRepository.setAmountCategory]

/-- The first row matched after the `UPDATE` is the rewritten first row
matched before it. -/
theorem find_after_set (expenseID userID : Int) (amount : Float64) (category : String)
    (rows : List Expense) :
    (rows.map (fun e => if whereIDAndUser expenseID userID e
        then expenseRepository.setAmountCategory amount category e else e)).find?
        (whereIDAndUser expenseID userID)
      = (rows.find? (whereIDAndUser expenseID userID)).map
          (expenseRepository.setAmountCategory amount category) := by
  induction rows with
  | nil => rfl
  | cons x xs ih =>
    by_cases hx : whereIDAndUser expenseID userID x = true
    · simp [List.find?, hx, whereIDAndUser_setAmountCategory]
    · simp only [Bool.not_eq_true] at hx
      simp [List.find?, hx, ih]

theorem overlayInput_of_valid (input : UpdateExpenseInput) (e : Expense)
    (hamount : ∀ a, input.Amount = some a → Float64.lt Float64.zero a = true)
    (hcategory : ∀ c, input.Category = some c → c ≠ "") :
    overlayInput input e
      = .ok { e with Amount := input.Amount.getD e.Amount,
                     Category := input.Category.getD e.Category } := by
  obtain ⟨amount, category⟩ := input
  cases amount with
  | none =>
    cases category with
    | none => simp [overlayInput]
    | some c => simp [overlayInput, hcategory c rfl]
  | some a =>
    have ha := Float64.le_zero_eq_false_of_pos a (hamount a rfl)
    cases category with
    | none => simp [overlayInput, ha]
    | some c => simp [overlayInput, ha, hcategory c rfl]

/-- The model of `strconv.Atoi` on sample inputs: signs, the empty string, a
bare sign, an underscore, a letter, and the two ends of the range of `int`. -/
theorem Atoi_samples :
    Atoi "0" = some 0 ∧ Atoi "-5" = some (-5) ∧ Atoi "+17" = some 17 ∧ Atoi "" = none
    ∧ Atoi "-" = none ∧ Atoi "1_0" = none ∧ Atoi "12a" = none ∧ Atoi " 1" = none
    ∧ Atoi "9223372036854775807" = some 9223372036854775807
    ∧ Atoi "9223372036854775808" = none
    ∧ Atoi "-9223372036854775808" = some (-9223372036854775808)
    ∧ Atoi "-9223372036854775809" = none := by
  decide

/-- The uniqueness constraint on ids holds in the empty table and is kept by
every statement of the repository. -/
theorem uniqueIDs_preserved (db : DB) (h : db.UniqueIDs) :
    DB.UniqueIDs { expenses := [], seq := db.seq, now := db.now }
    ∧ (∀ userID amount category,
        (expenseRepository.CreateExpense userID amount category db).2.UniqueIDs)
    ∧ (∀ expenseID userID amount category,
        (expenseRepository.UpdateExpense expenseID userID amount category db).2.UniqueIDs)
    ∧ (∀ expenseID userID, (expenseRepository.DeleteExpense expenseID userID db).2.UniqueIDs) := by
  refine ⟨List.Pairwise.nil, ?_, ?_, ?_⟩
  · intro userID amount category
    unfold expenseRepository.CreateExpense
    by_cases hany : db.expenses.any (fun x => decide (x.ID = (db.seq : Int) + 1)) = true
    · simpa [hany, DB.UniqueIDs] using h
    · simp only [hany, if_false, DB.UniqueIDs, Bool.false_eq_true]
      rw [List.pairwise_append]
      refine ⟨h, List.pairwise_singleton _ _, ?_⟩
      intro a ha b hb
      simp only [List.mem_singleton] at hb
      subst hb
      intro hab
      exact hany (List.any_eq_true.mpr ⟨a, ha, by simpa using hab⟩)
  · intro expenseID userID amount category
    unfold expenseRepository.UpdateExpense
    have hrows : (db.expenses.map (fun e => if whereIDAndUser expenseID userID e
        then expenseRepository.setAmountCategory amount category e else e)).Pairwise
        (fun a b => a.ID ≠ b.ID) := by
      rw [List.pairwise_map]
      refine List.Pairwise.imp ?_ h
      intro a b hab
      by_cases ha : whereIDAndUser expenseID userID a = true <;>
        by_cases hb : whereIDAndUser expenseID userID b = true <;>
        simpa [ha, hb, expenseRepository.setAmountCategory] using hab
    simp only []
    cases (db.expenses.map (fun e => if whereIDAndUser expenseID userID e
        then expenseRepository.setAmountCategory amount category e else e)).find?
        (whereIDAndUser expenseID userID) with
    | some expense => exact hrows
    | none => exact h
  · intro expenseID userID
    exact List.Pairwise.filter _ h

/-- Under the uniqueness constraint a row of another owner hides every row
with its id from the caller. -/
theorem find_foreign_eq_none (db : DB) (e : Expense) (caller : Int) (hunique : db.UniqueIDs)
    (hmem : e ∈ db.expenses) (hforeign : e.UserID ≠ caller) :
    db.expenses.find? (whereIDAndUser e.ID caller) = none := by
  rw [List.find?_eq_none]
  intro x hx hhit
  simp only [whereIDAndUser, decide_eq_true_eq] at hhit
  have hsymm : Symmetric (fun a b : Expense => a.ID ≠ b.ID) := fun _ _ h => Ne.symm h
  by_cases hxe : x = e
  · exact hforeign (hxe ▸ hhit.2)
  · exact List.Pairwise.forall hsymm hunique hx hmem hxe hhit.1

theorem find_absent_eq_none (db : DB) (absentID caller : Int)
    (habsent : ∀ x ∈ db.expenses, x.ID ≠ absentID) :
    db.expenses.find? (whereIDAndUser absentID caller) = none := by
  rw [List.find?_eq_none]
  intro x hx hhit
  simp only [whereIDAndUser, decide_eq_true_eq] at hhit
  exact habsent x hx hhit.1

theorem getExpenseByIDService_of_no_row (db : DB) (expenseID userID : Int)
    (hid : 0 < expenseID) (huser : 0 < userID)
    (hnone : db.expenses.find? (whereIDAndUser expenseID userID) = none) :
    GetExpenseByIDService NewExpenseRepository expenseID userID db
      = (.error .ErrExpenseNotFound, db) := by
  have hguard : ¬ (expenseID ≤ 0 ∨ userID ≤ 0) := by omega
  simp [GetExpenseByIDService, hguard, NewExpenseRepository, expenseRepository.GetExpenseByID,
    hnone, GoError.IsErrNoRows]

theorem updateExpenseService_of_no_row (db : DB) (expenseID userID : Int)
    (input : UpdateExpenseInput) (hid : 0 < expenseID) (huser : 0 < userID)
    (hnone : db.expenses.find? (whereIDAndUser expenseID userID) = none) :
    UpdateExpenseService NewExpenseRepository expenseID userID input db
      = (.error .ErrExpenseNotFound, db) := by
  have hguard : ¬ (expenseID ≤ 0 ∨ userID ≤ 0) := by omega
  simp [UpdateExpenseService, hguard, NewExpenseRepository, expenseRepository.GetExpenseByID,
    hnone, GoError.IsErrNoRows]

theorem deleteExpenseService_of_no_row (db : DB) (expenseID userID : Int)
    (hid : 0 < expenseID) (huser : 0 < userID)
    (hnone : db.expenses.find? (whereIDAndUser expenseID userID) = none) :
    DeleteExpenseService NewExpenseRepository expenseID userID db
      = (some .ErrExpenseNotFound, db) := by
  have hguard : ¬ (expenseID ≤ 0 ∨ userID ≤ 0) := by omega
  simp [DeleteExpenseService, hguard, NewExpenseRepository, expenseRepository.GetExpenseByID,
    hnone, GoError.IsErrNoRows]

/-- The three handlers answer 404 "expense not found" and leave the table as
it is when the store has no row for the parsed id and the caller. -/
theorem handlers_of_no_row (db : DB) (caller expenseID : Int) (idStr : String)
    (request : UpdateExpenseRequest) (hid : 0 < expenseID) (hcaller : 0 < caller)
    (hparse : Atoi idStr = some expenseID)
    (hnone : db.expenses.find? (whereIDAndUser expenseID caller) = none) :
    GetExpenseByIDHandler NewExpenseRepository (some (.int caller)) idStr db
        = (RespondError 404 "expense not found", db)
    ∧ UpdateExpenseHandler NewExpenseRepository (some (.int caller)) idStr (some request) db
        = (RespondError 404 "expense not found", db)
    ∧ DeleteExpenseHandler NewExpenseRepository (some (.int caller)) idStr db
        = (RespondError 404 "expense not found", db) := by
  have hguard : ¬ caller ≤ 0 := by omega
  refine ⟨?_, ?_, ?_⟩
  · simp [GetExpenseByIDHandler, CtxValue.assertInt, hguard, hparse,
      getExpenseByIDService_of_no_row db expenseID caller hid hcaller hnone,
      GoError.IsErrExpenseNotFound]
  · simp [UpdateExpenseHandler, CtxValue.assertInt, hguard, hparse,
      updateExpenseService_of_no_row db expenseID caller _ hid hcaller hnone,
      GoError.IsErrExpenseNotFound]
  · simp [DeleteExpenseHandler, CtxValue.assertInt, hguard, hparse,
      deleteExpenseService_of_no_row db expenseID caller hid hcaller hnone,
      GoError.IsErrExpenseNotFound]

/-- With valid arguments and an id not yet in the table, `AddExpenseService`
succeeds, returns the new row and stores it. -/
theorem addExpenseService_succeeds (db : DB) (owner : Int) (amount : Float64) (category : String)
    (hamount : Float64.lt Float64.zero amount = true) (hcategory : category ≠ " ")
    (hfree : ∀ x ∈ db.expenses, x.ID ≠ (db.seq : Int) + 1) :
    AddExpenseService NewExpenseRepository owner amount category db
      = (.ok { ID := (db.seq : Int) + 1, UserID := owner, Amount := amount,
               Category := category, CreatedAt := db.now },
          { db with
            expenses := db.expenses ++
              [{ ID := (db.seq : Int) + 1, UserID := owner, Amount := amount,
                 Category := category, CreatedAt := db.now }],
            seq := db.seq + 1 }) := by
  have hle := Float64.le_zero_eq_false_of_pos amount hamount
  have hany : db.expenses.any (fun x => decide (x.ID = (db.seq : Int) + 1)) = false := by
    rw [Bool.eq_false_iff]
    intro h
    rw [List.any_eq_true] at h
    obtain ⟨x, hx, hxid⟩ := h
    exact hfree x hx (by simpa using hxid)
  simp [AddExpenseService, ValidatePrice, validateCategory, hle, hcategory, NewExpenseRepository,
    expenseRepository.CreateExpense, hany]

/-! ### The claims -/

/-- C1: for every owner id, every category and every amount `a` with
`a <= 0`, `AddExpenseService` returns the error "amount must be greater than
0"; run on a recording repository it leaves the store state and the call log
as they were, so `CreateExpense` (or any other store method) is never called
and nothing is persisted. -/
theorem addExpense_rejects_nonpositive_amount {σ : Type} (r : ExpenseRepository σ) (s : σ)
    (log : List StoreCall) (userID : Int) (amount : Float64) (category : String)
    (h : Float64.le amount Float64.zero = true) :
    AddExpenseService (recording r) userID amount category (s, log)
      = (.error (.new "amount must be greater than 0"), (s, log)) := by
  simp [AddExpenseService, ValidatePrice, h]

/-- C1 at a concrete input: owner 7, amount 0 and category "food" on a table
with one row. -/
theorem addExpense_rejects_nonpositive_amount_witness :
    AddExpenseService (recording NewExpenseRepository) 7 (.fin 0) "food"
        ({ expenses := [{ ID := 1, UserID := 7, Amount := .fin 50, Category := "food",
                          CreatedAt := 3 }], seq := 1, now := 4 }, [])
      = (.error (.new "amount must be greater than 0"),
          ({ expenses := [{ ID := 1, UserID := 7, Amount := .fin 50, Category := "food",
                            CreatedAt := 3 }], seq := 1, now := 4 }, [])) :=
  addExpense_rejects_nonpositive_amount NewExpenseRepository _ [] 7 (.fin 0) "food"
    (by simp [Float64.le, Float64.zero])

/-- C2 (evaluation where the code departs from the claim): with owner 1 and
amount 10, `AddExpenseService` accepts the category of three blanks and the
empty category, calls `CreateExpense` with it and the row is stored; only the
category of exactly one blank is refused. The category of three blanks also
passes the binding of `AddExpenseHandler`, which answers 201. -/
theorem addExpense_accepts_blank_categories :
    AddExpenseService (recording NewExpenseRepository) 1 (.fin 10) "   "
        ({ expenses := [], seq := 0, now := 0 }, [])
      = (.ok { ID := 1, UserID := 1, Amount := .fin 10, Category := "   ", CreatedAt := 0 },
          ({ expenses := [{ ID := 1, UserID := 1, Amount := .fin 10, Category := "   ",
                            CreatedAt := 0 }], seq := 1, now := 0 },
            [StoreCall.CreateExpense 1 (.fin 10) "   "]))
    ∧ AddExpenseService (recording NewExpenseRepository) 1 (.fin 10) ""
        ({ expenses := [], seq := 0, now := 0 }, [])
      = (.ok { ID := 1, UserID := 1, Amount := .fin 10, Category := "", CreatedAt := 0 },
          ({ expenses := [{ ID := 1, UserID := 1, Amount := .fin 10, Category := "",
                            CreatedAt := 0 }], seq := 1, now := 0 },
            [StoreCall.CreateExpense 1 (.fin 10) ""]))
    ∧ AddExpenseService (recording NewExpenseRepository) 1 (.fin 10) " "
        ({ expenses := [], seq := 0, now := 0 }, [])
      = (.error (.new "category is required"), ({ expenses := [], seq := 0, now := 0 }, []))
    ∧ AddExpenseHandler NewExpenseRepository (some (.int 1))
        (some { Amount := .fin 10, Category := "   " }) { expenses := [], seq := 0, now := 0 }
      = ({ status := 201, body := .created 1 (.fin 10) "   " 0 },
          { expenses := [{ ID := 1, UserID := 1, Amount := .fin 10, Category := "   ",
                           CreatedAt := 0 }], seq := 1, now := 0 }) := by
  have hprice : ValidatePrice (.fin 10) = none := by
    norm_num [ValidatePrice, Float64.le, Float64.zero]
  have hblanks : validateCategory "   " = none := by decide
  have hempty : validateCategory "" = none := by decide
  have hblank : validateCategory " " = some (.new "category is required") := by decide
  have hbind : bindExpenseRequest (some { Amount := .fin 10, Category := "   " })
      = some { Amount := .fin 10, Category := "   " } := by
    have hcategory : ("   " : String) ≠ "" := by decide
    norm_num [bindExpenseRequest, hcategory]
  refine ⟨?_, ?_, ?_, ?_⟩ <;>
    simp [AddExpenseHandler, CtxValue.assertInt, hbind, AddExpenseService, hprice, hblanks,
      hempty, hblank, recording, NewExpenseRepository, expenseRepository.CreateExpense]

/-- C3: when the store returns the row `e` for `(expenseID, userID)` and the
patch is valid (a present amount is `> 0`, a present category is not empty),
`UpdateExpenseService` makes exactly two store calls, the fetch and then
`UpdateExpense` with the patch amount if present, otherwise `e.Amount`, and
the patch category if present, otherwise `e.Category`; it returns `e` with
these two fields and the table holds the row so rewritten. -/
theorem updateExpense_overlays_present_fields (db : DB) (log : List StoreCall)
    (expenseID userID : Int) (e : Expense) (input : UpdateExpenseInput)
    (hid : 0 < expenseID) (huser : 0 < userID)
    (hfetch : db.expenses.find? (whereIDAndUser expenseID userID) = some e)
    (hamount : ∀ a, input.Amount = some a → Float64.lt Float64.zero a = true)
    (hcategory : ∀ c, input.Category = some c → c ≠ "") :
    UpdateExpenseService (recording NewExpenseRepository) expenseID userID input (db, log)
      = (.ok { e with Amount := input.Amount.getD e.Amount,
                      Category := input.Category.getD e.Category },
          ({ db with expenses := db.expenses.map (fun x =>
                if whereIDAndUser expenseID userID x
                then { x with Amount := input.Amount.getD e.Amount,
                              Category := input.Category.getD e.Category }
                else x) },
            log ++ [StoreCall.GetExpenseByID expenseID userID,
              StoreCall.UpdateExpense expenseID userID (input.Amount.getD e.Amount)
                (input.Category.getD e.Category)])) := by
  have hguard : ¬ (expenseID ≤ 0 ∨ userID ≤ 0) := by omega
  have hfind := find_after_set expenseID userID (input.Amount.getD e.Amount)
    (input.Category.getD e.Category) db.expenses
  rw [hfetch] at hfind
  simp only [UpdateExpenseService, hguard, if_false, recording, NewExpenseRepository,
    expenseRepository.GetExpenseByID, hfetch, overlayInput_of_valid input e hamount hcategory,
    expenseRepository.UpdateExpense, hfind, Option.map_some']
  simp [expenseRepository.setAmountCategory]

/-- C3, the instance of the spec: the row `{amount: 50, category: "food"}`
patched with `{category: "travel"}` alone becomes `{amount: 50, category:
"travel"}`. -/
theorem updateExpense_overlays_present_fields_witness :
    UpdateExpenseService (recording NewExpenseRepository) 1 7
        { Amount := none, Category := some "travel" }
        ({ expenses := [{ ID := 1, UserID := 7, Amount := .fin 50, Category := "food",
                          CreatedAt := 3 }], seq := 1, now := 4 }, [])
      = (.ok { ID := 1, UserID := 7, Amount := .fin 50, Category := "travel", CreatedAt := 3 },
          ({ expenses := [{ ID := 1, UserID := 7, Amount := .fin 50, Category := "travel",
                            CreatedAt := 3 }], seq := 1, now := 4 },
            [StoreCall.GetExpenseByID 1 7, StoreCall.UpdateExpense 1 7 (.fin 50) "travel"])) := by
  have h := updateExpense_overlays_present_fields
    { expenses := [{ ID := 1, UserID := 7, Amount := .fin 50, Category := "food",
                     CreatedAt := 3 }], seq := 1, now := 4 } [] 1 7
    { ID := 1, UserID := 7, Amount := .fin 50, Category := "food", CreatedAt := 3 }
    { Amount := none, Category := some "travel" } (by decide) (by decide)
    (by simp [whereIDAndUser]) (by simp) (by simp)
  simpa [whereIDAndUser] using h

/-- C4: let the table satisfy the uniqueness constraint on ids, `e` be a row
owned by another user than `caller`, and `absentID` an id no row carries (ids
positive, as the sequence issues them). Then each of `GetExpenseByIDService`,
`UpdateExpenseService` (with any patch) and `DeleteExpenseService` called by
`caller` on `e.ID` returns exactly what it returns on `absentID` and leaves
the table unchanged; for a positive caller id that result is
`ErrExpenseNotFound`, and the three handlers answer both ids with status 404
and "expense not found". -/
theorem foreign_expense_indistinguishable_from_absent (db : DB) (e : Expense)
    (caller absentID : Int) (input : UpdateExpenseInput)
    (hunique : db.UniqueIDs) (hmem : e ∈ db.expenses) (hforeign : e.UserID ≠ caller)
    (hid : 0 < e.ID) (habsent : ∀ x ∈ db.expenses, x.ID ≠ absentID) (hpos : 0 < absentID) :
    (GetExpenseByIDService NewExpenseRepository e.ID caller db
        = GetExpenseByIDService NewExpenseRepository absentID caller db
      ∧ (GetExpenseByIDService NewExpenseRepository e.ID caller db).2 = db)
    ∧ (UpdateExpenseService NewExpenseRepository e.ID caller input db
        = UpdateExpenseService NewExpenseRepository absentID caller input db
      ∧ (UpdateExpenseService NewExpenseRepository e.ID caller input db).2 = db)
    ∧ (DeleteExpenseService NewExpenseRepository e.ID caller db
        = DeleteExpenseService NewExpenseRepository absentID caller db
      ∧ (DeleteExpenseService NewExpenseRepository e.ID caller db).2 = db)
    ∧ (0 < caller →
        GetExpenseByIDService NewExpenseRepository e.ID caller db
          = (.error .ErrExpenseNotFound, db)
        ∧ UpdateExpenseService NewExpenseRepository e.ID caller input db
          = (.error .ErrExpenseNotFound, db)
        ∧ DeleteExpenseService NewExpenseRepository e.ID caller db
          = (some .ErrExpenseNotFound, db)
        ∧ ∀ (idStr : String) (request : UpdateExpenseRequest),
            Atoi idStr = some e.ID ∨ Atoi idStr = some absentID →
            GetExpenseByIDHandler NewExpenseRepository (some (.int caller)) idStr db
                = (RespondError 404 "expense not found", db)
            ∧ UpdateExpenseHandler NewExpenseRepository (some (.int caller)) idStr
                (some request) db
                = (RespondError 404 "expense not found", db)
            ∧ DeleteExpenseHandler NewExpenseRepository (some (.int caller)) idStr db
                = (RespondError 404 "expense not found", db)) := by
  have hf := find_foreign_eq_none db e caller hunique hmem hforeign
  have ha := find_absent_eq_none db absentID caller habsent
  by_cases hcaller : 0 < caller
  · rw [getExpenseByIDService_of_no_row db e.ID caller hid hcaller hf,
      getExpenseByIDService_of_no_row db absentID caller hpos hcaller ha,
      updateExpenseService_of_no_row db e.ID caller input hid hcaller hf,
      updateExpenseService_of_no_row db absentID caller input hpos hcaller ha,
      deleteExpenseService_of_no_row db e.ID caller hid hcaller hf,
      deleteExpenseService_of_no_row db absentID caller hpos hcaller ha]
    refine ⟨⟨rfl, rfl⟩, ⟨rfl, rfl⟩, ⟨rfl, rfl⟩, fun _ => ⟨rfl, rfl, rfl, ?_⟩⟩
    intro idStr request hparse
    rcases hparse with hparse | hparse
    · exact handlers_of_no_row db caller e.ID idStr request hid hcaller hparse hf
    · exact handlers_of_no_row db caller absentID idStr request hpos hcaller hparse ha
  · have hbad : caller ≤ 0 := by omega
    refine ⟨?_, ?_, ?_, fun h => absurd h hcaller⟩ <;>
      simp [GetExpenseByIDService, UpdateExpenseService, DeleteExpenseService, hbad]

/-- C4 at a concrete table: user 2 asks for expense 1 of user 1, and for the
id 9 that no row carries, with the patch `{amount: 5}`. -/
theorem foreign_expense_indistinguishable_from_absent_witness :
    (GetExpenseByIDService NewExpenseRepository 1 2
          { expenses := [{ ID := 1, UserID := 1, Amount := .fin 50, Category := "food",
                           CreatedAt := 3 }], seq := 1, now := 4 }
        = GetExpenseByIDService NewExpenseRepository 9 2
          { expenses := [{ ID := 1, UserID := 1, Amount := .fin 50, Category := "food",
                           CreatedAt := 3 }], seq := 1, now := 4 })
    ∧ (DeleteExpenseHandler NewExpenseRepository (some (.int 2)) "1"
          { expenses := [{ ID := 1, UserID := 1, Amount := .fin 50, Category := "food",
                           CreatedAt := 3 }], seq := 1, now := 4 }
        = (RespondError 404 "expense not found",
          { expenses := [{ ID := 1, UserID := 1, Amount := .fin 50, Category := "food",
                           CreatedAt := 3 }], seq := 1, now := 4 })) := by
  have h := foreign_expense_indistinguishable_from_absent
    { expenses := [{ ID := 1, UserID := 1, Amount := .fin 50, Category := "food",
                     CreatedAt := 3 }], seq := 1, now := 4 }
    { ID := 1, UserID := 1, Amount := .fin 50, Category := "food", CreatedAt := 3 } 2 9
    { Amount := some (.fin 5), Category := none }
    (by simp [DB.UniqueIDs]) (by simp) (by decide) (by decide) (by simp) (by decide)
  exact ⟨h.1.1,
    ((h.2.2.2 (by decide)).2.2.2 "1" { Amount := none, Category := none }
      (Or.inl (by decide))).2.2⟩

/-- C5: when the table has no row with that id and owner,
`DeleteExpenseService` never returns success and leaves the table as it is,
and for positive ids the error is `ErrExpenseNotFound`; and whenever a delete
succeeds, the same delete run again on the resulting table returns
`ErrExpenseNotFound`. -/
theorem deleteExpense_absent_is_not_found (db : DB) (expenseID userID : Int) :
    ((∀ x ∈ db.expenses, ¬ (x.ID = expenseID ∧ x.UserID = userID)) →
        (DeleteExpenseService NewExpenseRepository expenseID userID db).1 ≠ none
        ∧ (DeleteExpenseService NewExpenseRepository expenseID userID db).2 = db
        ∧ (0 < expenseID → 0 < userID →
            DeleteExpenseService NewExpenseRepository expenseID userID db
              = (some .ErrExpenseNotFound, db)))
    ∧ ((DeleteExpenseService NewExpenseRepository expenseID userID db).1 = none →
        DeleteExpenseService NewExpenseRepository expenseID userID
            (DeleteExpenseService NewExpenseRepository expenseID userID db).2
          = (some .ErrExpenseNotFound,
              (DeleteExpenseService NewExpenseRepository expenseID userID db).2)) := by
  by_cases hguard : expenseID ≤ 0 ∨ userID ≤ 0
  · have hrun : DeleteExpenseService NewExpenseRepository expenseID userID db
        = (some (.new "invalid id"), db) := by
      simp [DeleteExpenseService, hguard]
    rw [hrun]
    refine ⟨fun _ => ⟨by simp, rfl, fun hid huser => ?_⟩, fun h => by simp at h⟩
    omega
  · have hid : 0 < expenseID := by omega
    have huser : 0 < userID := by omega
    constructor
    · intro habsent
      have hnone : db.expenses.find? (whereIDAndUser expenseID userID) = none := by
        rw [List.find?_eq_none]
        intro x hx hhit
        simp only [whereIDAndUser, decide_eq_true_eq] at hhit
        exact habsent x hx hhit
      rw [deleteExpenseService_of_no_row db expenseID userID hid huser hnone]
      exact ⟨by simp, rfl, fun _ _ => rfl⟩
    · intro hsuccess
      cases hfind : db.expenses.find? (whereIDAndUser expenseID userID) with
      | none =>
        rw [deleteExpenseService_of_no_row db expenseID userID hid huser hfind] at hsuccess
        simp at hsuccess
      | some e =>
        have hhit := List.find?_some hfind
        simp only [whereIDAndUser, decide_eq_true_eq] at hhit
        have hrun : DeleteExpenseService NewExpenseRepository expenseID userID db
            = (none, { db with expenses :=
                db.expenses.filter (fun x => !whereIDAndUser expenseID userID x) }) := by
          simp [DeleteExpenseService, hguard, NewExpenseRepository,
            expenseRepository.GetExpenseByID, hfind, expenseRepository.DeleteExpense, hhit.1,
            hhit.2]
        rw [hrun]
        apply deleteExpenseService_of_no_row _ expenseID userID hid huser
        rw [List.find?_eq_none]
        intro x hx
        simp only [List.mem_filter] at hx
        simpa using hx.2

/-- C5 at a concrete table: expense 1 of user 7 is deleted, the second delete
is answered `ErrExpenseNotFound`; so is the delete of id 9, never created. -/
theorem deleteExpense_absent_is_not_found_witness :
    DeleteExpenseService NewExpenseRepository 1 7
        { expenses := [{ ID := 1, UserID := 7, Amount := .fin 50, Category := "food",
                         CreatedAt := 3 }], seq := 1, now := 4 }
      = (none, { expenses := [], seq := 1, now := 4 })
    ∧ DeleteExpenseService NewExpenseRepository 1 7 { expenses := [], seq := 1, now := 4 }
      = (some .ErrExpenseNotFound, { expenses := [], seq := 1, now := 4 })
    ∧ DeleteExpenseService NewExpenseRepository 9 7
        { expenses := [{ ID := 1, UserID := 7, Amount := .fin 50, Category := "food",
                         CreatedAt := 3 }], seq := 1, now := 4 }
      = (some .ErrExpenseNotFound,
          { expenses := [{ ID := 1, UserID := 7, Amount := .fin 50, Category := "food",
                           CreatedAt := 3 }], seq := 1, now := 4 }) := by
  have hrun : DeleteExpenseService NewExpenseRepository 1 7
        { expenses := [{ ID := 1, UserID := 7, Amount := .fin 50, Category := "food",
                         CreatedAt := 3 }], seq := 1, now := 4 }
      = (none, { expenses := [], seq := 1, now := 4 }) := by
    simp [DeleteExpenseService, NewExpenseRepository, expenseRepository.GetExpenseByID,
      expenseRepository.DeleteExpense, whereIDAndUser]
  have hsecond := (deleteExpense_absent_is_not_found
    { expenses := [{ ID := 1, UserID := 7, Amount := .fin 50, Category := "food",
                     CreatedAt := 3 }], seq := 1, now := 4 } 1 7).2
  rw [hrun] at hsecond
  have hnever := ((deleteExpense_absent_is_not_found
    { expenses := [{ ID := 1, UserID := 7, Amount := .fin 50, Category := "food",
                     CreatedAt := 3 }], seq := 1, now := 4 } 9 7).1
    (by simp)).2.2 (by decide) (by decide)
  exact ⟨hrun, hsecond rfl, hnever⟩

/-- C6, where the claim fails: on a table holding expense 1 of user 1, the
repository `DeleteExpense` reports success (a nil error) for the id 9 that no
row carries, for expense 1 asked by user 2, and for expense 1 of user 1 when
it has just been deleted. -/
theorem repository_deleteExpense_reports_success_without_row :
    ((expenseRepository.DeleteExpense 9 1
        { expenses := [{ ID := 1, UserID := 1, Amount := .fin 50, Category := "food",
                         CreatedAt := 3 }], seq := 1, now := 4 }).1 = none)
    ∧ ((expenseRepository.DeleteExpense 1 2
        { expenses := [{ ID := 1, UserID := 1, Amount := .fin 50, Category := "food",
                         CreatedAt := 3 }], seq := 1, now := 4 }).1 = none)
    ∧ ((expenseRepository.DeleteExpense 1 1
        { expenses := [{ ID := 1, UserID := 1, Amount := .fin 50, Category := "food",
                         CreatedAt := 3 }], seq := 1, now := 4 }).2
        = { expenses := [], seq := 1, now := 4 })
    ∧ ((expenseRepository.DeleteExpense 1 1 { expenses := [], seq := 1, now := 4 }).1 = none) := by
  refine ⟨rfl, rfl, ?_, rfl⟩
  simp [expenseRepository.DeleteExpense, whereIDAndUser]

/-- C6 as amended: the repository `DeleteExpense` always returns a nil error;
it removes the rows matching `(id, ownerID)` and keeps every other row, and
when no row matches (absent, owned by another user, or already deleted) the
table is left exactly as it was. -/
theorem repository_deleteExpense_always_succeeds (db : DB) (expenseID userID : Int) :
    (expenseRepository.DeleteExpense expenseID userID db).1 = none
    ∧ (expenseRepository.DeleteExpense expenseID userID db).2.expenses
        = db.expenses.filter (fun e => !decide (e.ID = expenseID ∧ e.UserID = userID))
    ∧ ((∀ e ∈ db.expenses, ¬ (e.ID = expenseID ∧ e.UserID = userID)) →
        (expenseRepository.DeleteExpense expenseID userID db).2 = db) := by
  refine ⟨rfl, rfl, ?_⟩
  intro hnone
  have hkeep : db.expenses.filter (fun e => !whereIDAndUser expenseID userID e)
      = db.expenses := by
    rw [List.filter_eq_self]
    intro e he
    have hmiss := hnone e he
    simp only [whereIDAndUser, Bool.not_eq_true', decide_eq_false_iff_not]
    exact hmiss
  simp [expenseRepository.DeleteExpense, hkeep]

/-- C7: for a positive owner id, whenever `AddExpenseService` succeeds with
the expense `e` on the table `db`, leaving `db1`, the expense carries the
amount, the category and the owner given to it, and
`GetExpenseByIDService (e.ID, owner)` on `db1` succeeds and returns `e`. -/
theorem addExpense_then_get_round_trip (db db1 : DB) (owner : Int) (amount : Float64)
    (category : String) (e : Expense) (howner : 0 < owner)
    (hadd : AddExpenseService NewExpenseRepository owner amount category db = (.ok e, db1)) :
    GetExpenseByIDService NewExpenseRepository e.ID owner db1 = (.ok e, db1)
    ∧ e.Amount = amount ∧ e.Category = category ∧ e.UserID = owner := by
  unfold AddExpenseService at hadd
  cases hprice : ValidatePrice amount with
  | some err => simp [hprice] at hadd
  | none =>
    cases hcat : validateCategory category with
    | some err => simp [hprice, hcat] at hadd
    | none =>
      simp only [hprice, hcat, NewExpenseRepository, expenseRepository.CreateExpense] at hadd
      by_cases hany : db.expenses.any (fun x => decide (x.ID = (db.seq : Int) + 1)) = true
      · simp [hany] at hadd
      · simp only [hany, if_false, Prod.mk.injEq, Except.ok.injEq, Bool.false_eq_true] at hadd
        obtain ⟨he, hdb⟩ := hadd
        subst he
        subst hdb
        have hfree : db.expenses.find? (whereIDAndUser ((db.seq : Int) + 1) owner) = none := by
          rw [List.find?_eq_none]
          intro x hx hhit
          simp only [whereIDAndUser, decide_eq_true_eq] at hhit
          exact hany (List.any_eq_true.mpr ⟨x, hx, by simpa using hhit.1⟩)
        have hguard : ¬ ((db.seq : Int) + 1 ≤ 0 ∨ owner ≤ 0) := by omega
        refine ⟨?_, rfl, rfl, rfl⟩
        simp [GetExpenseByIDService, hguard, NewExpenseRepository,
          expenseRepository.GetExpenseByID, List.find?_append, hfree, whereIDAndUser]

/-- C7, the instance of the spec: amount 12.5 and category "fuel" created for
owner 7 on a table with one older row; the new expense has id 2 and is read
back as created. -/
theorem addExpense_then_get_round_trip_witness :
    AddExpenseService NewExpenseRepository 7 (.fin (25 / 2)) "fuel"
        { expenses := [{ ID := 1, UserID := 7, Amount := .fin 50, Category := "food",
                         CreatedAt := 3 }], seq := 1, now := 4 }
      = (.ok { ID := 2, UserID := 7, Amount := .fin (25 / 2), Category := "fuel", CreatedAt := 4 },
          { expenses := [{ ID := 1, UserID := 7, Amount := .fin 50, Category := "food",
                           CreatedAt := 3 },
                         { ID := 2, UserID := 7, Amount := .fin (25 / 2), Category := "fuel",
                           CreatedAt := 4 }], seq := 2, now := 4 })
    ∧ GetExpenseByIDService NewExpenseRepository 2 7
          { expenses := [{ ID := 1, UserID := 7, Amount := .fin 50, Category := "food",
                           CreatedAt := 3 },
                         { ID := 2, UserID := 7, Amount := .fin (25 / 2), Category := "fuel",
                           CreatedAt := 4 }], seq := 2, now := 4 }
      = (.ok { ID := 2, UserID := 7, Amount := .fin (25 / 2), Category := "fuel", CreatedAt := 4 },
          { expenses := [{ ID := 1, UserID := 7, Amount := .fin 50, Category := "food",
                           CreatedAt := 3 },
                         { ID := 2, UserID := 7, Amount := .fin (25 / 2), Category := "fuel",
                           CreatedAt := 4 }], seq := 2, now := 4 }) := by
  have hadd : AddExpenseService NewExpenseRepository 7 (.fin (25 / 2)) "fuel"
        { expenses := [{ ID := 1, UserID := 7, Amount := .fin 50, Category := "food",
                         CreatedAt := 3 }], seq := 1, now := 4 }
      = (.ok { ID := 2, UserID := 7, Amount := .fin (25 / 2), Category := "fuel", CreatedAt := 4 },
          { expenses := [{ ID := 1, UserID := 7, Amount := .fin 50, Category := "food",
                           CreatedAt := 3 },
                         { ID := 2, UserID := 7, Amount := .fin (25 / 2), Category := "fuel",
                           CreatedAt := 4 }], seq := 2, now := 4 }) := by
    have h := addExpenseService_succeeds
      { expenses := [{ ID := 1, UserID := 7, Amount := .fin 50, Category := "food",
                       CreatedAt := 3 }], seq := 1, now := 4 } 7 (.fin (25 / 2)) "fuel"
      (by norm_num [Float64.lt, Float64.zero]) (by decide) (by simp)
    simpa using h
  exact ⟨hadd, (addExpense_then_get_round_trip _ _ 7 _ _ _ (by decide) hadd).1⟩

/-- C8: when the fetch returns the row `e` and leaves the store state as it
is, and the patch carries an amount `<= 0` or an empty category (whatever the
other field holds), `UpdateExpenseService` returns an error; run on a
recording repository the store state is unchanged and the call log has gained
at most the fetch, so `UpdateExpense` is never called. -/
theorem updateExpense_invalid_patch_writes_nothing {σ : Type} (r : ExpenseRepository σ) (s : σ)
    (log : List StoreCall) (expenseID userID : Int) (e : Expense) (input : UpdateExpenseInput)
    (hfetch : r.GetExpenseByID expenseID userID s = (.ok e, s))
    (hinvalid : (∃ a, input.Amount = some a ∧ Float64.le a Float64.zero = true)
      ∨ input.Category = some "") :
    ∃ text,
      UpdateExpenseService (recording r) expenseID userID input (s, log)
          = (.error (.new text), (s, log))
      ∨ UpdateExpenseService (recording r) expenseID userID input (s, log)
          = (.error (.new text), (s, log ++ [StoreCall.GetExpenseByID expenseID userID])) := by
  by_cases hguard : expenseID ≤ 0 ∨ userID ≤ 0
  · exact ⟨"invalid ID", Or.inl (by simp [UpdateExpenseService, hguard])⟩
  · have hoverlay : ∃ text, overlayInput input e = .error (.new text) := by
      obtain ⟨amount, category⟩ := input
      rcases hinvalid with ⟨a, ha, hle⟩ | hc
      · simp only at ha
        subst ha
        exact ⟨"amount must be greater than 0", by simp [overlayInput, hle]⟩
      · simp only at hc
        subst hc
        cases amount with
        | none => exact ⟨"category can not be empty", by simp [overlayInput]⟩
        | some a =>
          by_cases hle : Float64.le a Float64.zero = true
          · exact ⟨"amount must be greater than 0", by simp [overlayInput, hle]⟩
          · exact ⟨"category can not be empty", by simp [overlayInput, hle]⟩
    obtain ⟨text, htext⟩ := hoverlay
    exact ⟨text, Or.inr (by simp [UpdateExpenseService, hguard, recording, hfetch, htext])⟩

/-- C8 at a concrete table: the patch `{amount: 20, category: ""}`, a valid
amount with an invalid category, on expense 1 of user 7. -/
theorem updateExpense_invalid_patch_writes_nothing_witness :
    ∃ text,
      UpdateExpenseService (recording NewExpenseRepository) 1 7
          { Amount := some (.fin 20), Category := some "" }
          ({ expenses := [{ ID := 1, UserID := 7, Amount := .fin 50, Category := "food",
                            CreatedAt := 3 }], seq := 1, now := 4 }, [])
        = (.error (.new text),
            ({ expenses := [{ ID := 1, UserID := 7, Amount := .fin 50, Category := "food",
                              CreatedAt := 3 }], seq := 1, now := 4 }, []))
      ∨ UpdateExpenseService (recording NewExpenseRepository) 1 7
          { Amount := some (.fin 20), Category := some "" }
          ({ expenses := [{ ID := 1, UserID := 7, Amount := .fin 50, Category := "food",
                            CreatedAt := 3 }], seq := 1, now := 4 }, [])
        = (.error (.new text),
            ({ expenses := [{ ID := 1, UserID := 7, Amount := .fin 50, Category := "food",
                              CreatedAt := 3 }], seq := 1, now := 4 },
              [] ++ [StoreCall.GetExpenseByID 1 7])) :=
  updateExpense_invalid_patch_writes_nothing NewExpenseRepository
    { expenses := [{ ID := 1, UserID := 7, Amount := .fin 50, Category := "food",
                     CreatedAt := 3 }], seq := 1, now := 4 } [] 1 7
    { ID := 1, UserID := 7, Amount := .fin 50, Category := "food", CreatedAt := 3 }
    { Amount := some (.fin 20), Category := some "" }
    (by simp [NewExpenseRepository, expenseRepository.GetExpenseByID, whereIDAndUser])
    (Or.inr rfl)

/-- C9: for every repository, `GetExpenseByIDService` with `expenseID <= 0`
or `ownerID <= 0` returns the error "invalid id" without any store call (on a
recording repository state and log are unchanged). With both ids positive it
makes the one call `GetExpenseByID`: it returns the record of the store
unchanged on success, `ErrExpenseNotFound` when the store error is
`pgx.ErrNoRows`, and the generic error "failed to fetch expense" for any
other store error; so the result is `ErrExpenseNotFound` exactly when the
store reported no row. -/
theorem getExpenseByIDService_contract {σ : Type} (r : ExpenseRepository σ) (s : σ)
    (log : List StoreCall) (expenseID userID : Int) :
    ((expenseID ≤ 0 ∨ userID ≤ 0) →
        GetExpenseByIDService (recording r) expenseID userID (s, log)
          = (.error (.new "invalid id"), (s, log)))
    ∧ (0 < expenseID → 0 < userID →
        (GetExpenseByIDService (recording r) expenseID userID (s, log)).2.2
            = log ++ [StoreCall.GetExpenseByID expenseID userID]
        ∧ (∀ e s1, r.GetExpenseByID expenseID userID s = (.ok e, s1) →
            GetExpenseByIDService r expenseID userID s = (.ok e, s1))
        ∧ (∀ err s1, r.GetExpenseByID expenseID userID s = (.error err, s1) →
            err.IsErrNoRows = true →
            GetExpenseByIDService r expenseID userID s = (.error .ErrExpenseNotFound, s1))
        ∧ (∀ err s1, r.GetExpenseByID expenseID userID s = (.error err, s1) →
            err.IsErrNoRows = false →
            GetExpenseByIDService r expenseID userID s
              = (.error (.new "failed to fetch expense"), s1))
        ∧ ((GetExpenseByIDService r expenseID userID s).1 = .error .ErrExpenseNotFound
            ↔ ∃ err, (r.GetExpenseByID expenseID userID s).1 = .error err
                ∧ err.IsErrNoRows = true)) := by
  constructor
  · intro hbad
    simp [GetExpenseByIDService, hbad]
  · intro hid huser
    have hguard : ¬ (expenseID ≤ 0 ∨ userID ≤ 0) := by omega
    refine ⟨?_, ?_, ?_, ?_, ?_⟩
    · rcases hres : r.GetExpenseByID expenseID userID s with ⟨res, s1⟩
      cases res with
      | ok e => simp [GetExpenseByIDService, hguard, recording, hres]
      | error err =>
        cases hrows : err.IsErrNoRows <;>
          simp [GetExpenseByIDService, hguard, recording, hres, hrows]
    · intro e s1 hres
      simp [GetExpenseByIDService, hguard, hres]
    · intro err s1 hres hrows
      simp [GetExpenseByIDService, hguard, hres, hrows]
    · intro err s1 hres hrows
      simp [GetExpenseByIDService, hguard, hres, hrows]
    · rcases hres : r.GetExpenseByID expenseID userID s with ⟨res, s1⟩
      cases res with
      | ok e => simp [GetExpenseByIDService, hguard, hres]
      | error err =>
        cases hrows : err.IsErrNoRows <;>
          simp [GetExpenseByIDService, hguard, hres, hrows]

/-- C9 at a concrete table: the id 0 is refused without a store call, and the
id 9 that no row carries is answered `ErrExpenseNotFound`. -/
theorem getExpenseByIDService_contract_witness :
    GetExpenseByIDService (recording NewExpenseRepository) 0 7
        ({ expenses := [{ ID := 1, UserID := 7, Amount := .fin 50, Category := "food",
                          CreatedAt := 3 }], seq := 1, now := 4 }, [])
      = (.error (.new "invalid id"),
          ({ expenses := [{ ID := 1, UserID := 7, Amount := .fin 50, Category := "food",
                            CreatedAt := 3 }], seq := 1, now := 4 }, []))
    ∧ GetExpenseByIDService NewExpenseRepository 9 7
        { expenses := [{ ID := 1, UserID := 7, Amount := .fin 50, Category := "food",
                         CreatedAt := 3 }], seq := 1, now := 4 }
      = (.error .ErrExpenseNotFound,
          { expenses := [{ ID := 1, UserID := 7, Amount := .fin 50, Category := "food",
                           CreatedAt := 3 }], seq := 1, now := 4 }) :=
  ⟨(getExpenseByIDService_contract NewExpenseRepository
      { expenses := [{ ID := 1, UserID := 7, Amount := .fin 50, Category := "food",
                       CreatedAt := 3 }], seq := 1, now := 4 } [] 0 7).1 (Or.inl (by decide)),
    (getExpenseByIDService_contract NewExpenseRepository
      { expenses := [{ ID := 1, UserID := 7, Amount := .fin 50, Category := "food",
                       CreatedAt := 3 }], seq := 1, now := 4 } [] 9 7).2 (by decide) (by decide)
      |>.2.2.1 .ErrNoRows _
        (by simp [NewExpenseRepository, expenseRepository.GetExpenseByID, whereIDAndUser]) rfl⟩

/-- C10 (evaluation where the code departs from the claim): for the
authenticated user 7 owning expense 1, `PUT /expenses/1` with the amount -5
and with the empty category, and `GET`, `PUT` and `DELETE` with the numeric
ids 0 and -3, are all answered with status 500, not 400; whereas
`POST /users/expenses` with the amount -5 is answered with status 400. -/
theorem expense_handlers_answer_validation_failure_with_500 :
    UpdateExpenseHandler NewExpenseRepository (some (.int 7)) "1"
        (some { Amount := some (.fin (-5)), Category := none })
        { expenses := [{ ID := 1, UserID := 7, Amount := .fin 50, Category := "food",
                         CreatedAt := 3 }], seq := 1, now := 4 }
      = (RespondError 500 "amount must be greater than 0",
          { expenses := [{ ID := 1, UserID := 7, Amount := .fin 50, Category := "food",
                           CreatedAt := 3 }], seq := 1, now := 4 })
    ∧ UpdateExpenseHandler NewExpenseRepository (some (.int 7)) "1"
        (some { Amount := none, Category := some "" })
        { expenses := [{ ID := 1, UserID := 7, Amount := .fin 50, Category := "food",
                         CreatedAt := 3 }], seq := 1, now := 4 }
      = (RespondError 500 "category can not be empty",
          { expenses := [{ ID := 1, UserID := 7, Amount := .fin 50, Category := "food",
                           CreatedAt := 3 }], seq := 1, now := 4 })
    ∧ GetExpenseByIDHandler NewExpenseRepository (some (.int 7)) "0"
        { expenses := [{ ID := 1, UserID := 7, Amount := .fin 50, Category := "food",
                         CreatedAt := 3 }], seq := 1, now := 4 }
      = (RespondError 500 "internal server error",
          { expenses := [{ ID := 1, UserID := 7, Amount := .fin 50, Category := "food",
                           CreatedAt := 3 }], seq := 1, now := 4 })
    ∧ UpdateExpenseHandler NewExpenseRepository (some (.int 7)) "0"
        (some { Amount := some (.fin 20), Category := some "travel" })
        { expenses := [{ ID := 1, UserID := 7, Amount := .fin 50, Category := "food",
                         CreatedAt := 3 }], seq := 1, now := 4 }
      = (RespondError 500 "invalid ID",
          { expenses := [{ ID := 1, UserID := 7, Amount := .fin 50, Category := "food",
                           CreatedAt := 3 }], seq := 1, now := 4 })
    ∧ DeleteExpenseHandler NewExpenseRepository (some (.int 7)) "-3"
        { expenses := [{ ID := 1, UserID := 7, Amount := .fin 50, Category := "food",
                         CreatedAt := 3 }], seq := 1, now := 4 }
      = (RespondError 500 "internal server error",
          { expenses := [{ ID := 1, UserID := 7, Amount := .fin 50, Category := "food",
                           CreatedAt := 3 }], seq := 1, now := 4 })
    ∧ AddExpenseHandler NewExpenseRepository (some (.int 7))
        (some { Amount := .fin (-5), Category := "food" })
        { expenses := [{ ID := 1, UserID := 7, Amount := .fin 50, Category := "food",
                         CreatedAt := 3 }], seq := 1, now := 4 }
      = (RespondError 400 "invalid input",
          { expenses := [{ ID := 1, UserID := 7, Amount := .fin 50, Category := "food",
                           CreatedAt := 3 }], seq := 1, now := 4 }) := by
  have hone : Atoi "1" = some 1 := by decide
  have hzero : Atoi "0" = some 0 := by decide
  have hneg : Atoi "-3" = some (-3) := by decide
  have hle : Float64.le (.fin (-5)) Float64.zero = true := by
    norm_num [Float64.le, Float64.zero]
  have hbind : bindExpenseRequest (some { Amount := .fin (-5), Category := "food" })
      = some { Amount := .fin (-5), Category := "food" } := by
    have hcategory : ("food" : String) ≠ "" := by decide
    norm_num [bindExpenseRequest, hcategory]
  refine ⟨?_, ?_, ?_, ?_, ?_, ?_⟩
  · simp [UpdateExpenseHandler, CtxValue.assertInt, hone, UpdateExpenseService,
      NewExpenseRepository, expenseRepository.GetExpenseByID, whereIDAndUser, overlayInput, hle,
      GoError.IsErrExpenseNotFound, GoError.Error]
  · simp [UpdateExpenseHandler, CtxValue.assertInt, hone, UpdateExpenseService,
      NewExpenseRepository, expenseRepository.GetExpenseByID, whereIDAndUser, overlayInput,
      GoError.IsErrExpenseNotFound, GoError.Error]
  · simp [GetExpenseByIDHandler, CtxValue.assertInt, hzero, GetExpenseByIDService,
      GoError.IsErrExpenseNotFound]
  · simp [UpdateExpenseHandler, CtxValue.assertInt, hzero, UpdateExpenseService,
      GoError.IsErrExpenseNotFound, GoError.Error]
  · simp [DeleteExpenseHandler, CtxValue.assertInt, hneg, DeleteExpenseService,
      GoError.IsErrExpenseNotFound]
  · simp [AddExpenseHandler, CtxValue.assertInt, hbind, AddExpenseService, ValidatePrice, hle]

/-! ### Auxiliary facts on pools and failures of the driver -/

theorem over_CreateExpense {σ : Type} (pool : Pool σ) (userID : Int) (amount : Float64)
    (category : String) (s : σ) :
    (expenseRepository.over pool).CreateExpense userID amount category s
      = pool.insertExpense userID amount category s := by
  rcases h : pool.insertExpense userID amount category s with ⟨res, s1⟩
  cases res <;> simp [expenseRepository.over, h]

theorem over_GetAllExpense {σ : Type} (pool : Pool σ) (userID : Int) (s : σ) :
    (expenseRepository.over pool).GetAllExpense userID s = pool.selectExpenses userID s := by
  rcases h : pool.selectExpenses userID s with ⟨res, s1⟩
  cases res <;> simp [expenseRepository.over, h]

theorem over_GetExpenseByID {σ : Type} (pool : Pool σ) (expenseID userID : Int) (s : σ) :
    (expenseRepository.over pool).GetExpenseByID expenseID userID s
      = pool.selectExpense expenseID userID s := by
  rcases h : pool.selectExpense expenseID userID s with ⟨res, s1⟩
  cases res <;> simp [expenseRepository.over, h]

/-- The repository of the program over a pool without failures is
`NewExpenseRepository`. -/
theorem over_faultyPool_none :
    expenseRepository.over (faultyPool (fun _ => none)) = NewExpenseRepository := by
  have hupdate : (expenseRepository.over (faultyPool (fun _ => none))).UpdateExpense
      = expenseRepository.UpdateExpense := by
    funext expenseID userID amount category db
    simp only [expenseRepository.over, faultyPool, expenseRepository.UpdateExpense]
    cases (db.expenses.map (fun e => if whereIDAndUser expenseID userID e
        then expenseRepository.setAmountCategory amount category e else e)).find?
        (whereIDAndUser expenseID userID) <;> rfl
  have hcreate : (expenseRepository.over (faultyPool (fun _ => none))).CreateExpense
      = expenseRepository.CreateExpense := by
    funext userID amount category db
    rw [over_CreateExpense]
    rfl
  have hall : (expenseRepository.over (faultyPool (fun _ => none))).GetAllExpense
      = expenseRepository.GetAllExpense := by
    funext userID db
    rw [over_GetAllExpense]
    rfl
  have hget : (expenseRepository.over (faultyPool (fun _ => none))).GetExpenseByID
      = expenseRepository.GetExpenseByID := by
    funext expenseID userID db
    rw [over_GetExpenseByID]
    rfl
  have hdelete : (expenseRepository.over (faultyPool (fun _ => none))).DeleteExpense
      = expenseRepository.DeleteExpense := by
    funext expenseID userID db
    rfl
  rcases hrepo : expenseRepository.over (faultyPool (fun _ => none)) with ⟨c, a, g, u, d⟩
  rw [hrepo] at hupdate hcreate hall hget hdelete
  simp only at hupdate hcreate hall hget hdelete
  subst hupdate hcreate hall hget hdelete
  rfl

/-- The update of the repository of the program hides the text of the
driver: two pools alike up to that text give the same result. -/
theorem over_UpdateExpense_congr {σ : Type} (p1 p2 : Pool σ) (expenseID userID : Int)
    (amount : Float64) (category : String) (s : σ)
    (h : sameUpToText (p1.updateExpense expenseID userID amount category s)
      (p2.updateExpense expenseID userID amount category s)) :
    (expenseRepository.over p1).UpdateExpense expenseID userID amount category s
      = (expenseRepository.over p2).UpdateExpense expenseID userID amount category s := by
  rcases h with heq | ⟨text1, text2, s1, h1, h2⟩
  · simp [expenseRepository.over, heq]
  · simp [expenseRepository.over, h1, h2]

theorem getExpenseByIDService_congr {σ : Type} (r1 r2 : ExpenseRepository σ)
    (expenseID userID : Int) (s : σ)
    (h : sameUpToText (r1.GetExpenseByID expenseID userID s)
      (r2.GetExpenseByID expenseID userID s)) :
    GetExpenseByIDService r1 expenseID userID s = GetExpenseByIDService r2 expenseID userID s := by
  rcases h with heq | ⟨text1, text2, s1, h1, h2⟩
  · simp [GetExpenseByIDService, heq]
  · simp [GetExpenseByIDService, h1, h2, GoError.IsErrNoRows]

theorem updateExpenseService_congr {σ : Type} (r1 r2 : ExpenseRepository σ)
    (expenseID userID : Int) (input : UpdateExpenseInput) (s : σ)
    (hget : sameUpToText (r1.GetExpenseByID expenseID userID s)
      (r2.GetExpenseByID expenseID userID s))
    (hupdate : ∀ amount category s1,
      r1.UpdateExpense expenseID userID amount category s1
        = r2.UpdateExpense expenseID userID amount category s1) :
    UpdateExpenseService r1 expenseID userID input s
      = UpdateExpenseService r2 expenseID userID input s := by
  rcases hget with heq | ⟨text1, text2, s1, h1, h2⟩
  · simp [UpdateExpenseService, heq, hupdate]
  · simp [UpdateExpenseService, h1, h2, GoError.IsErrNoRows]

theorem faultyPool_sameUpToText (fault1 fault2 : StoreCall → Option String)
    (h : ∀ call, (fault1 call).isSome = (fault2 call).isSome) :
    (faultyPool fault1).sameUpToText (faultyPool fault2) := by
  have key : ∀ call, (fault1 call = none ∧ fault2 call = none)
      ∨ ∃ text1 text2, fault1 call = some text1 ∧ fault2 call = some text2 := by
    intro call
    have hc := h call
    cases h1 : fault1 call <;> cases h2 : fault2 call <;> simp_all
  refine ⟨?_, ?_, ?_, ?_, ?_⟩
  · intro userID amount category s
    rcases key (.CreateExpense userID amount category) with ⟨h1, h2⟩ | ⟨t1, t2, h1, h2⟩
    · exact Or.inl (by simp [faultyPool, h1, h2])
    · exact Or.inr ⟨t1, t2, s, by simp [faultyPool, h1], by simp [faultyPool, h2]⟩
  · intro userID s
    rcases key (.GetAllExpense userID) with ⟨h1, h2⟩ | ⟨t1, t2, h1, h2⟩
    · exact Or.inl (by simp [faultyPool, h1, h2])
    · exact Or.inr ⟨t1, t2, s, by simp [faultyPool, h1], by simp [faultyPool, h2]⟩
  · intro expenseID userID s
    rcases key (.GetExpenseByID expenseID userID) with ⟨h1, h2⟩ | ⟨t1, t2, h1, h2⟩
    · exact Or.inl (by simp [faultyPool, h1, h2])
    · exact Or.inr ⟨t1, t2, s, by simp [faultyPool, h1], by simp [faultyPool, h2]⟩
  · intro expenseID userID amount category s
    rcases key (.UpdateExpense expenseID userID amount category) with
      ⟨h1, h2⟩ | ⟨t1, t2, h1, h2⟩
    · exact Or.inl (by simp [faultyPool, h1, h2])
    · exact Or.inr ⟨t1, t2, s, by simp [faultyPool, h1], by simp [faultyPool, h2]⟩
  · intro expenseID userID s
    rcases key (.DeleteExpense expenseID userID) with ⟨h1, h2⟩ | ⟨t1, t2, h1, h2⟩
    · exact Or.inl (by simp [faultyPool, h1, h2])
    · exact Or.inr ⟨t1, t2, s, by simp [faultyPool, h1], by simp [faultyPool, h2]⟩

theorem addExpenseHandler_congr {σ : Type} (p1 p2 : Pool σ) (h : p1.sameUpToText p2)
    (userID : Option CtxValue) (decoded : Option ExpenseRequest) (s : σ) :
    AddExpenseHandler (expenseRepository.over p1) userID decoded s
      = AddExpenseHandler (expenseRepository.over p2) userID decoded s := by
  cases userID with
  | none => rfl
  | some value =>
    cases hint : value.assertInt with
    | none => simp [AddExpenseHandler, hint]
    | some id =>
      cases hbind : bindExpenseRequest decoded with
      | none => simp [AddExpenseHandler, hint, hbind]
      | some input =>
        cases hprice : ValidatePrice input.Amount with
        | some err => simp [AddExpenseHandler, hint, hbind, AddExpenseService, hprice]
        | none =>
          cases hcategory : validateCategory input.Category with
          | some err =>
            simp [AddExpenseHandler, hint, hbind, AddExpenseService, hprice, hcategory]
          | none =>
            simp only [AddExpenseHandler, hint, hbind, AddExpenseService, hprice, hcategory,
              over_CreateExpense]
            rcases h.1 id input.Amount input.Category s with heq | ⟨t1, t2, s1, h1, h2⟩
            · rw [heq]
            · rw [h1, h2]

theorem getAllExpenseHandler_congr {σ : Type} (p1 p2 : Pool σ) (h : p1.sameUpToText p2)
    (typeAndValue : GoError → String) (userID : Option CtxValue) (s : σ) :
    GetAllExpenseHandler (expenseRepository.over p1) typeAndValue userID s
      = GetAllExpenseHandler (expenseRepository.over p2) typeAndValue userID s := by
  cases userID with
  | none => rfl
  | some value =>
    cases hint : value.assertInt with
    | none => simp [GetAllExpenseHandler, hint]
    | some id =>
      by_cases hid : id ≤ 0
      · simp [GetAllExpenseHandler, hint, hid]
      · simp only [GetAllExpenseHandler, hint, hid, if_false, GetAllExpenseService,
          over_GetAllExpense]
        rcases h.2.1 id s with heq | ⟨t1, t2, s1, h1, h2⟩
        · rw [heq]
        · rw [h1, h2]

theorem getExpenseByIDHandler_congr {σ : Type} (p1 p2 : Pool σ) (h : p1.sameUpToText p2)
    (userID : Option CtxValue) (idStr : String) (s : σ) :
    GetExpenseByIDHandler (expenseRepository.over p1) userID idStr s
      = GetExpenseByIDHandler (expenseRepository.over p2) userID idStr s := by
  have hservice : ∀ expenseID id,
      GetExpenseByIDService (expenseRepository.over p1) expenseID id s
        = GetExpenseByIDService (expenseRepository.over p2) expenseID id s := by
    intro expenseID id
    apply getExpenseByIDService_congr
    rw [over_GetExpenseByID, over_GetExpenseByID]
    exact h.2.2.1 expenseID id s
  simp only [GetExpenseByIDHandler, hservice]

theorem updateExpenseHandler_congr {σ : Type} (p1 p2 : Pool σ) (h : p1.sameUpToText p2)
    (userID : Option CtxValue) (idStr : String) (bound : Option UpdateExpenseRequest) (s : σ) :
    UpdateExpenseHandler (expenseRepository.over p1) userID idStr bound s
      = UpdateExpenseHandler (expenseRepository.over p2) userID idStr bound s := by
  have hservice : ∀ expenseID id input,
      UpdateExpenseService (expenseRepository.over p1) expenseID id input s
        = UpdateExpenseService (expenseRepository.over p2) expenseID id input s := by
    intro expenseID id input
    apply updateExpenseService_congr
    · rw [over_GetExpenseByID, over_GetExpenseByID]
      exact h.2.2.1 expenseID id s
    · intro amount category s1
      exact over_UpdateExpense_congr p1 p2 expenseID id amount category s1
        (h.2.2.2.1 expenseID id amount category s1)
  simp only [UpdateExpenseHandler, hservice]

theorem deleteExpenseHandler_congr {σ : Type} (p1 p2 : Pool σ) (h : p1.sameUpToText p2)
    (userID : Option CtxValue) (idStr : String) (s : σ) :
    DeleteExpenseHandler (expenseRepository.over p1) userID idStr s
      = DeleteExpenseHandler (expenseRepository.over p2) userID idStr s := by
  cases userID with
  | none => rfl
  | some value =>
    cases hint : value.assertInt with
    | none => simp [DeleteExpenseHandler, hint]
    | some id =>
      by_cases hid : id ≤ 0
      · simp [DeleteExpenseHandler, hint, hid]
      · cases hparse : Atoi idStr with
        | none => simp [DeleteExpenseHandler, hint, hid, hparse]
        | some expenseID =>
          by_cases hexp : expenseID ≤ 0
          · simp [DeleteExpenseHandler, hint, hid, hparse, DeleteExpenseService, hexp]
          · have hguard : ¬ (expenseID ≤ 0 ∨ id ≤ 0) := by omega
            simp only [DeleteExpenseHandler, hint, hid, if_false, hparse, DeleteExpenseService,
              hguard, over_GetExpenseByID]
            simp only [hexp, if_false]
            rcases h.2.2.1 expenseID id s with heq | ⟨t1, t2, s1, h1, h2⟩
            · rw [heq]
              rcases hres : p2.selectExpense expenseID id s with ⟨res, s1⟩
              cases res with
              | error err => rfl
              | ok existing =>
                rcases h.2.2.2.2 existing.ID existing.UserID s1 with
                  hdel | ⟨t1, t2, s2, h1, h2⟩
                · simp [expenseRepository.over, hdel]
                · simp [expenseRepository.over, h1, h2, GoError.IsErrExpenseNotFound]
            · simp [h1, h2, GoError.IsErrNoRows, GoError.IsErrExpenseNotFound]

/-- The shape of a successful `UpdateExpenseService` on the table: a row was
fetched, the patch was accepted, every row with that id and owner got the
merged amount and category and nothing else changed. -/
theorem updateExpenseService_ok (db db1 : DB) (expenseID userID : Int)
    (input : UpdateExpenseInput) (updated : Expense)
    (h : UpdateExpenseService NewExpenseRepository expenseID userID input db
      = (.ok updated, db1)) :
    ∃ e merged, db.expenses.find? (whereIDAndUser expenseID userID) = some e
      ∧ overlayInput input e = .ok merged
      ∧ updated = expenseRepository.setAmountCategory merged.Amount merged.Category e
      ∧ db1 = { db with expenses := db.expenses.map (fun x =>
          if whereIDAndUser expenseID userID x
          then expenseRepository.setAmountCategory merged.Amount merged.Category x else x) } := by
  by_cases hguard : expenseID ≤ 0 ∨ userID ≤ 0
  · simp [UpdateExpenseService, hguard] at h
  · cases hfind : db.expenses.find? (whereIDAndUser expenseID userID) with
    | none =>
      simp [UpdateExpenseService, hguard, NewExpenseRepository,
        expenseRepository.GetExpenseByID, hfind, GoError.IsErrNoRows] at h
    | some e =>
      cases hmerge : overlayInput input e with
      | error err =>
        simp [UpdateExpenseService, hguard, NewExpenseRepository,
          expenseRepository.GetExpenseByID, hfind, hmerge] at h
      | ok merged =>
        have hafter := find_after_set expenseID userID merged.Amount merged.Category db.expenses
        rw [hfind] at hafter
        simp only [UpdateExpenseService, hguard, if_false, NewExpenseRepository,
          expenseRepository.GetExpenseByID, hfind, hmerge, expenseRepository.UpdateExpense,
          hafter, Option.map_some', Prod.mk.injEq, Except.ok.injEq] at h
        exact ⟨e, merged, rfl, hmerge, h.1.symm, h.2.symm⟩

/-- The shape of a successful `DeleteExpenseService` on the table: a row with
that id and owner was there, and the table afterwards is the table without
the rows with that id and owner. -/
theorem deleteExpenseService_ok (db db1 : DB) (expenseID userID : Int)
    (h : DeleteExpenseService NewExpenseRepository expenseID userID db = (none, db1)) :
    (∃ e, db.expenses.find? (whereIDAndUser expenseID userID) = some e)
    ∧ db1 = { db with expenses :=
        db.expenses.filter (fun x => !whereIDAndUser expenseID userID x) } := by
  by_cases hguard : expenseID ≤ 0 ∨ userID ≤ 0
  · simp [DeleteExpenseService, hguard] at h
  · cases hfind : db.expenses.find? (whereIDAndUser expenseID userID) with
    | none =>
      simp [DeleteExpenseService, hguard, NewExpenseRepository,
        expenseRepository.GetExpenseByID, hfind, GoError.IsErrNoRows] at h
    | some e =>
      have hhit := List.find?_some hfind
      simp only [whereIDAndUser, decide_eq_true_eq] at hhit
      simp only [DeleteExpenseService, hguard, if_false, NewExpenseRepository,
        expenseRepository.GetExpenseByID, hfind, expenseRepository.DeleteExpense, hhit.1,
        hhit.2, Prod.mk.injEq, true_and] at h
      exact ⟨⟨e, rfl⟩, h.symm⟩

/-- A token made by `GenerateToken` is accepted by `ValidateToken` under the
same secret exactly until it expires, 24 hours after it was made. -/
theorem validateToken_generateToken (c : TokenCodec) (secret : String) (issued now : Nat)
    (userID : Int) :
    ∃ token, GenerateToken c secret issued userID = .ok token
      ∧ token.alg = some "HS256" ∧ token.user_id = some userID
      ∧ (now < issued + 24 * 3600 → ValidateToken c secret now token = .ok token)
      ∧ (issued + 24 * 3600 ≤ now →
          ValidateToken c secret now token
            = .error (.new "token has invalid claims: token is expired")) := by
  refine ⟨_, rfl, rfl, rfl, ?_, ?_⟩
  · intro hlive
    simp [ValidateToken, Parse, GetSigningMethod, keyFunc, SigningMethod.Verify, hlive]
  · intro hdead
    have hnot : ¬ now < issued + 24 * 3600 := by omega
    simp [ValidateToken, Parse, GetSigningMethod, keyFunc, SigningMethod.Verify, hnot]

/-- The library function `jwt.Parse` returns the token it was given. -/
theorem parse_ok_eq (c : TokenCodec) (now : Nat) (t : Token)
    (keyFunction : Token → Except GoError String) (token : Token)
    (h : Parse c now t keyFunction = .ok token) : token = t := by
  unfold Parse at h
  split at h
  · simp at h
  · split at h
    · simp at h
    · split at h
      · simp at h
      · split at h
        · simp at h
        · split at h
          · split at h
            · simp only [Except.ok.injEq] at h
              exact h.symm
            · simp at h
          · simp only [Except.ok.injEq] at h
            exact h.symm

theorem getSigningMethod_HMAC (alg : String) (hash : Hash) :
    GetSigningMethod alg = some (.HMAC hash)
      ↔ (alg = "HS256" ∧ hash = .SHA256) ∨ (alg = "HS384" ∧ hash = .SHA384)
        ∨ (alg = "HS512" ∧ hash = .SHA512) := by
  unfold GetSigningMethod
  constructor
  · intro h
    split at h
    · simp_all
    · split at h
      · simp_all
      · split at h
        · simp_all
        · split at h
          · simp at h
          · split at h <;> simp at h
  · intro h
    rcases h with ⟨h1, h2⟩ | ⟨h1, h2⟩ | ⟨h1, h2⟩ <;> subst h1 <;> subst h2 <;> decide

/-- C11: for a request body that passes binding, `LogInUserHandler` answers
with status 401 and the message "invalid email or password" both when the
store has no row for the email and when it has one but `CheckPassword`
refuses the password; the two responses are the same response. -/
theorem login_failures_uniform {σ : Type} (r : UserRepository σ)
    (CheckPassword : String → String → Option GoError) (c : TokenCodec) (secret : String)
    (now : Nat) (input : LogInRequest) (sUnknown sKnown s1 s2 : σ) (err : GoError)
    (user : User)
    (hunknown : r.LogInUser input.Email sUnknown = (.error err, s1))
    (hrows : err.IsErrNoRows = true)
    (hknown : r.LogInUser input.Email sKnown = (.ok user, s2))
    (hmismatch : CheckPassword input.Password user.PasswordHash ≠ none) :
    (LogInUserHandler r CheckPassword c secret now (some input) sUnknown).1
        = (LogInUserHandler r CheckPassword c secret now (some input) sKnown).1
    ∧ (LogInUserHandler r CheckPassword c secret now (some input) sUnknown).1
        = RespondError 401 "invalid email or password"
    ∧ (LogInUserHandler r CheckPassword c secret now (some input) sKnown).1
        = RespondError 401 "invalid email or password" := by
  have hfirst : (LogInUserHandler r CheckPassword c secret now (some input) sUnknown).1
      = RespondError 401 "invalid email or password" := by
    cases hemail : validateLoginEmail input.Email with
    | some e => simp [LogInUserHandler, LogInUserService, hemail]
    | none => simp [LogInUserHandler, LogInUserService, hemail, hunknown, hrows]
  have hsecond : (LogInUserHandler r CheckPassword c secret now (some input) sKnown).1
      = RespondError 401 "invalid email or password" := by
    cases hemail : validateLoginEmail input.Email with
    | some e => simp [LogInUserHandler, LogInUserService, hemail]
    | none =>
      cases hcheck : CheckPassword input.Password user.PasswordHash with
      | none => exact absurd hcheck hmismatch
      | some e => simp [LogInUserHandler, LogInUserService, hemail, hknown, hcheck]
  exact ⟨hfirst.trans hsecond.symm, hfirst, hsecond⟩

/-- C11 at concrete tables: the login of "ann@example.com" with the password
"guess" on an empty table, and on a table where that email is registered with
another password. -/
theorem login_failures_uniform_witness :
    (LogInUserHandler NewUserRepository
        (fun password hash => if hash = password then none else some (.new "mismatch"))
        sampleCodec "key" 100 (some { Email := "ann@example.com", Password := "guess" })
        { users := [], seq := 0, now := 0 }).1
      = (LogInUserHandler NewUserRepository
        (fun password hash => if hash = password then none else some (.new "mismatch"))
        sampleCodec "key" 100 (some { Email := "ann@example.com", Password := "guess" })
        { users := [{ ID := 1, Email := "ann@example.com", PasswordHash := "right",
                      CreatedAt := 0 }], seq := 1, now := 5 }).1 :=
  (login_failures_uniform NewUserRepository
    (fun password hash => if hash = password then none else some (.new "mismatch"))
    sampleCodec "key" 100 { Email := "ann@example.com", Password := "guess" }
    { users := [], seq := 0, now := 0 }
    { users := [{ ID := 1, Email := "ann@example.com", PasswordHash := "right",
                  CreatedAt := 0 }], seq := 1, now := 5 }
    { users := [], seq := 0, now := 0 }
    { users := [{ ID := 1, Email := "ann@example.com", PasswordHash := "right",
                  CreatedAt := 0 }], seq := 1, now := 5 }
    .ErrNoRows
    { ID := 1, Email := "ann@example.com", PasswordHash := "right", CreatedAt := 0 }
    (by simp [NewUserRepository, userRepository.LogInUser]) rfl
    (by simp [NewUserRepository, userRepository.LogInUser]) (by decide)).1

/-- C12: let two pools answer every statement alike except that, where one
fails in the driver, the other fails in the driver with another text. Then
for every request each of the five expense handlers, run on the repository of
the program over the one pool and over the other, gives the same response
(status and body) and the same state: no response depends on the text of a
failure of the driver. For `UpdateExpenseHandler`, which sends the text of the
service error, this holds because `UpdateExpense` of the repository replaces
the error of the driver by `errors.New("failed to update expense")` and the
service replaces the error of the fetch by "failed to fetch expense". -/
theorem expense_handlers_hide_driver_text {σ : Type} (p1 p2 : Pool σ)
    (h : p1.sameUpToText p2) (typeAndValue : GoError → String) (userID : Option CtxValue)
    (idStr : String) (decoded : Option ExpenseRequest) (bound : Option UpdateExpenseRequest)
    (s : σ) :
    AddExpenseHandler (expenseRepository.over p1) userID decoded s
        = AddExpenseHandler (expenseRepository.over p2) userID decoded s
    ∧ GetAllExpenseHandler (expenseRepository.over p1) typeAndValue userID s
        = GetAllExpenseHandler (expenseRepository.over p2) typeAndValue userID s
    ∧ GetExpenseByIDHandler (expenseRepository.over p1) userID idStr s
        = GetExpenseByIDHandler (expenseRepository.over p2) userID idStr s
    ∧ UpdateExpenseHandler (expenseRepository.over p1) userID idStr bound s
        = UpdateExpenseHandler (expenseRepository.over p2) userID idStr bound s
    ∧ DeleteExpenseHandler (expenseRepository.over p1) userID idStr s
        = DeleteExpenseHandler (expenseRepository.over p2) userID idStr s :=
  ⟨addExpenseHandler_congr p1 p2 h userID decoded s,
    getAllExpenseHandler_congr p1 p2 h typeAndValue userID s,
    getExpenseByIDHandler_congr p1 p2 h userID idStr s,
    updateExpenseHandler_congr p1 p2 h userID idStr bound s,
    deleteExpenseHandler_congr p1 p2 h userID idStr s⟩

/-- C12 at a concrete table: `PUT /expenses/1` with `{amount: 20}` by the
owner, when the `UPDATE` fails in the driver with the text "connection
refused" and when it fails with "timeout: 10.0.0.5:5432", is answered alike,
with status 500 and a text that holds neither. -/
theorem expense_handlers_hide_driver_text_witness :
    UpdateExpenseHandler
        (expenseRepository.over (faultyPool (fun call =>
          match call with
          | .UpdateExpense _ _ _ _ => some "connection refused"
          | _ => none)))
        (some (.int 7)) "1" (some { Amount := some (.fin 20), Category := none })
        { expenses := [{ ID := 1, UserID := 7, Amount := .fin 50, Category := "food",
                         CreatedAt := 3 }], seq := 1, now := 4 }
      = UpdateExpenseHandler
        (expenseRepository.over (faultyPool (fun call =>
          match call with
          | .UpdateExpense _ _ _ _ => some "timeout: 10.0.0.5:5432"
          | _ => none)))
        (some (.int 7)) "1" (some { Amount := some (.fin 20), Category := none })
        { expenses := [{ ID := 1, UserID := 7, Amount := .fin 50, Category := "food",
                         CreatedAt := 3 }], seq := 1, now := 4 }
    ∧ UpdateExpenseHandler
        (expenseRepository.over (faultyPool (fun call =>
          match call with
          | .UpdateExpense _ _ _ _ => some "connection refused"
          | _ => none)))
        (some (.int 7)) "1" (some { Amount := some (.fin 20), Category := none })
        { expenses := [{ ID := 1, UserID := 7, Amount := .fin 50, Category := "food",
                         CreatedAt := 3 }], seq := 1, now := 4 }
      = (RespondError 500 "failed to update expense: failed to update expense",
          { expenses := [{ ID := 1, UserID := 7, Amount := .fin 50, Category := "food",
                           CreatedAt := 3 }], seq := 1, now := 4 }) := by
  refine ⟨(expense_handlers_hide_driver_text _ _
    (faultyPool_sameUpToText _ _ (fun call => by cases call <;> rfl)) (fun e => e.Error)
    (some (.int 7)) "1" none (some { Amount := some (.fin 20), Category := none }) _).2.2.2.1, ?_⟩
  have hone : Atoi "1" = some 1 := by decide
  have hle : Float64.le (.fin 20) Float64.zero = false := by
    norm_num [Float64.le, Float64.zero]
  simp [UpdateExpenseHandler, CtxValue.assertInt, hone, UpdateExpenseService,
    expenseRepository.over, faultyPool, expenseRepository.GetExpenseByID, whereIDAndUser,
    overlayInput, hle, GoError.IsErrExpenseNotFound, GoError.Error]

/-- The service taken alone does not refuse the empty category (its check
compares with the one-blank string): called with the amount 10 and the empty
category on a table that satisfies the invariant, `AddExpenseService` stores
a row with an empty category. The program never makes this call, the binding
of `AddExpenseHandler` refuses the empty category before the service is
reached. -/
theorem addExpenseService_accepts_empty_category :
    DB.Valid { expenses := [{ ID := 1, UserID := 7, Amount := .fin 50, Category := "food",
                              CreatedAt := 3 }], seq := 1, now := 4 }
    ∧ AddExpenseService NewExpenseRepository 7 (.fin 10) ""
        { expenses := [{ ID := 1, UserID := 7, Amount := .fin 50, Category := "food",
                         CreatedAt := 3 }], seq := 1, now := 4 }
      = (.ok { ID := 2, UserID := 7, Amount := .fin 10, Category := "", CreatedAt := 4 },
          { expenses := [{ ID := 1, UserID := 7, Amount := .fin 50, Category := "food",
                           CreatedAt := 3 },
                         { ID := 2, UserID := 7, Amount := .fin 10, Category := "",
                           CreatedAt := 4 }], seq := 2, now := 4 })
    ∧ ¬ DB.Valid { expenses := [{ ID := 1, UserID := 7, Amount := .fin 50, Category := "food",
                                  CreatedAt := 3 },
                                { ID := 2, UserID := 7, Amount := .fin 10, Category := "",
                                  CreatedAt := 4 }], seq := 2, now := 4 } := by
  have hprice : ValidatePrice (.fin 10) = none := by
    norm_num [ValidatePrice, Float64.le, Float64.zero]
  have hempty : validateCategory "" = none := by decide
  have hfood : ("food" : String) ≠ "" := by decide
  refine ⟨?_, ?_, ?_⟩
  · intro e he
    simp only [List.mem_singleton] at he
    subst he
    exact ⟨by norm_num [Float64.lt, Float64.zero], hfood⟩
  · simp [AddExpenseService, hprice, hempty, NewExpenseRepository,
      expenseRepository.CreateExpense]
  · intro hvalid
    exact (hvalid { ID := 2, UserID := 7, Amount := .fin 10, Category := "", CreatedAt := 4 }
      (by simp)).2 rfl

/-- C14, where the claim fails: the key function hands out the secret for a
token whose header names `none`, and, for every HMAC, `ValidateToken` with the
secret "key" accepts a token whose header names `HS512` and whose signature is
the HMAC-SHA512 of its first two segments under "key". -/
theorem validateToken_accepts_other_algorithm :
    keyFunc "key"
        { alg := some "none", user_id := some 1, exp := some 200, signingString := "",
          Signature := "" } = .ok "key"
    ∧ ∀ c : TokenCodec,
        ValidateToken c "key" 100
            { alg := some "HS512", user_id := some 1, exp := some 200,
              signingString := c.segments "HS512" 1 200,
              Signature := c.hmac .SHA512 "key" (c.segments "HS512" 1 200) }
          = .ok { alg := some "HS512", user_id := some 1, exp := some 200,
                  signingString := c.segments "HS512" 1 200,
                  Signature := c.hmac .SHA512 "key" (c.segments "HS512" 1 200) } := by
  refine ⟨rfl, fun c => ?_⟩
  have hmethod : GetSigningMethod "HS512" = some (.HMAC .SHA512) := by decide
  simp [ValidateToken, Parse, hmethod, keyFunc, SigningMethod.Verify]

/-- C14 as amended: the key function hands out the secret for every token;
`ValidateToken` accepts a token exactly when its header names one of the HMAC
methods `HS256`, `HS384`, `HS512`, its signature is the HMAC of that method
over its first two segments under the secret, and its claim `exp`, when
present, lies after `now`; it then returns the token. So a token whose header
names no HMAC method is rejected, and so is a token whose signature is not
the one the secret gives. -/
theorem validateToken_accepts_iff (c : TokenCodec) (secret : String) (now : Nat) (t : Token) :
    (∀ t0, keyFunc secret t0 = .ok secret)
    ∧ ((∃ token, ValidateToken c secret now t = .ok token)
        ↔ (∃ hash, ((t.alg = some "HS256" ∧ hash = .SHA256)
              ∨ (t.alg = some "HS384" ∧ hash = .SHA384)
              ∨ (t.alg = some "HS512" ∧ hash = .SHA512))
            ∧ t.Signature = c.hmac hash secret t.signingString)
          ∧ ∀ exp, t.exp = some exp → now < exp)
    ∧ (∀ token, ValidateToken c secret now t = .ok token → token = t) := by
  refine ⟨fun _ => rfl, ?_, ?_⟩
  · constructor
    · rintro ⟨token, h⟩
      cases halg : t.alg with
      | none => simp [ValidateToken, Parse, halg] at h
      | some alg =>
        cases hmethod : GetSigningMethod alg with
        | none => simp [ValidateToken, Parse, halg, hmethod] at h
        | some method =>
          cases method with
          | publicKey =>
            simp [ValidateToken, Parse, halg, hmethod, keyFunc, SigningMethod.Verify] at h
          | unsecured =>
            simp [ValidateToken, Parse, halg, hmethod, keyFunc, SigningMethod.Verify] at h
          | HMAC hash =>
            have hnames := (getSigningMethod_HMAC alg hash).mp hmethod
            by_cases hsig : t.Signature = c.hmac hash secret t.signingString
            · refine ⟨⟨hash, ?_, hsig⟩, ?_⟩
              · rcases hnames with ⟨h1, h2⟩ | ⟨h1, h2⟩ | ⟨h1, h2⟩ <;> subst h1 <;> simp [h2]
              · intro exp hexp
                by_contra hlate
                simp [ValidateToken, Parse, halg, hmethod, keyFunc, SigningMethod.Verify,
                  hsig, hexp, hlate] at h
            · simp [ValidateToken, Parse, halg, hmethod, keyFunc, SigningMethod.Verify,
                hsig] at h
    · rintro ⟨⟨hash, hnames, hsig⟩, hexp⟩
      have hmethod : ∃ alg, t.alg = some alg ∧ GetSigningMethod alg = some (.HMAC hash) := by
        rcases hnames with ⟨h1, h2⟩ | ⟨h1, h2⟩ | ⟨h1, h2⟩
        · exact ⟨"HS256", h1, by subst h2; decide⟩
        · exact ⟨"HS384", h1, by subst h2; decide⟩
        · exact ⟨"HS512", h1, by subst h2; decide⟩
      obtain ⟨alg, halg, hget⟩ := hmethod
      refine ⟨t, ?_⟩
      cases hexpc : t.exp with
      | none =>
        simp [ValidateToken, Parse, halg, hget, keyFunc, SigningMethod.Verify, hsig, hexpc]
      | some exp =>
        simp [ValidateToken, Parse, halg, hget, keyFunc, SigningMethod.Verify, hsig, hexpc,
          hexp exp hexpc]
  · intro token h
    cases hparse : Parse c now t (keyFunc secret) with
    | error err => simp [ValidateToken, hparse] at h
    | ok parsed =>
      simp only [ValidateToken, hparse, Except.ok.injEq] at h
      subst h
      exact parse_ok_eq c now t (keyFunc secret) parsed hparse

/-- C14 at concrete tokens, with the secret "key" at time 100: the token made
by `GenerateToken` is accepted, the same token with the header `none` and the
token signed with the other key "yek" are rejected. -/
theorem validateToken_accepts_iff_witness :
    (∃ token, ValidateToken sampleCodec "key" 100
        { alg := some "HS256", user_id := some 1, exp := some 86500,
          signingString := "HS256.1.86500",
          Signature := "sha256/key/HS256.1.86500" } = .ok token)
    ∧ ¬ (∃ token, ValidateToken sampleCodec "key" 100
        { alg := some "none", user_id := some 1, exp := some 86500,
          signingString := "none.1.86500", Signature := "" } = .ok token)
    ∧ ¬ (∃ token, ValidateToken sampleCodec "key" 100
        { alg := some "HS256", user_id := some 1, exp := some 86500,
          signingString := "HS256.1.86500",
          Signature := "sha256/yek/HS256.1.86500" } = .ok token) := by
  refine ⟨?_, ?_, ?_⟩
  · exact (validateToken_accepts_iff sampleCodec "key" 100 _).2.1.mpr
      ⟨⟨.SHA256, Or.inl ⟨rfl, rfl⟩, by decide⟩, by intro exp hexp; simp at hexp; omega⟩
  · intro haccept
    obtain ⟨⟨hash, hnames, -⟩, -⟩ :=
      (validateToken_accepts_iff sampleCodec "key" 100 _).2.1.mp haccept
    rcases hnames with ⟨h1, -⟩ | ⟨h1, -⟩ | ⟨h1, -⟩ <;> simp at h1
  · intro haccept
    obtain ⟨⟨hash, hnames, hsig⟩, -⟩ :=
      (validateToken_accepts_iff sampleCodec "key" 100 _).2.1.mp haccept
    rcases hnames with ⟨h1, h2⟩ | ⟨h1, h2⟩ | ⟨h1, h2⟩
    · subst h2
      revert hsig
      decide
    · simp at h1
    · simp at h1

/-- C15: on the table, a successful `UpdateExpenseService` on `(expenseID,
userID)` returns a row with that id and owner and the creation timestamp of
the row it fetched, and leaves the table with every row in its place: the
rows with that id and owner have got the returned amount and category and
kept their other fields, every other row is unchanged. A successful
`DeleteExpenseService` found a row with that id and owner and leaves the
table without the rows with that id and owner, every other row unchanged and
in its place. Sequence and clock are untouched by both. -/
theorem update_and_delete_frame (db db1 : DB) (expenseID userID : Int)
    (input : UpdateExpenseInput) (updated : Expense) :
    (UpdateExpenseService NewExpenseRepository expenseID userID input db = (.ok updated, db1) →
        updated.ID = expenseID ∧ updated.UserID = userID
        ∧ (∃ e ∈ db.expenses,
            e.ID = expenseID ∧ e.UserID = userID ∧ updated.CreatedAt = e.CreatedAt)
        ∧ db1.seq = db.seq ∧ db1.now = db.now
        ∧ db1.expenses = db.expenses.map (fun x =>
            if x.ID = expenseID ∧ x.UserID = userID
            then { x with Amount := updated.Amount, Category := updated.Category } else x))
    ∧ (DeleteExpenseService NewExpenseRepository expenseID userID db = (none, db1) →
        (∃ e ∈ db.expenses, e.ID = expenseID ∧ e.UserID = userID)
        ∧ db1.seq = db.seq ∧ db1.now = db.now
        ∧ db1.expenses = db.expenses.filter (fun x =>
            !decide (x.ID = expenseID ∧ x.UserID = userID))) := by
  constructor
  · intro h
    obtain ⟨e, merged, hfind, -, hupdated, hdb⟩ :=
      updateExpenseService_ok db db1 expenseID userID input updated h
    have hhit := List.find?_some hfind
    simp only [whereIDAndUser, decide_eq_true_eq] at hhit
    subst hupdated
    subst hdb
    refine ⟨hhit.1, hhit.2, ⟨e, List.mem_of_find?_eq_some hfind, hhit.1, hhit.2, rfl⟩, rfl, rfl,
      ?_⟩
    simp [whereIDAndUser, expenseRepository.setAmountCategory]
  · intro h
    obtain ⟨⟨e, hfind⟩, hdb⟩ := deleteExpenseService_ok db db1 expenseID userID h
    have hhit := List.find?_some hfind
    simp only [whereIDAndUser, decide_eq_true_eq] at hhit
    subst hdb
    exact ⟨⟨e, List.mem_of_find?_eq_some hfind, hhit.1, hhit.2⟩, rfl, rfl, rfl⟩

/-- C15 at a concrete table of two rows of user 7: the patch `{amount: 20}`
on expense 1 rewrites that row alone, and the delete of expense 1 removes
that row alone. -/
theorem update_and_delete_frame_witness :
    UpdateExpenseService NewExpenseRepository 1 7 { Amount := some (.fin 20), Category := none }
        { expenses := [{ ID := 1, UserID := 7, Amount := .fin 50, Category := "food",
                         CreatedAt := 3 },
                       { ID := 2, UserID := 7, Amount := .fin 9, Category := "fuel",
                         CreatedAt := 4 }], seq := 2, now := 5 }
      = (.ok { ID := 1, UserID := 7, Amount := .fin 20, Category := "food", CreatedAt := 3 },
          { expenses := [{ ID := 1, UserID := 7, Amount := .fin 20, Category := "food",
                           CreatedAt := 3 },
                         { ID := 2, UserID := 7, Amount := .fin 9, Category := "fuel",
                           CreatedAt := 4 }], seq := 2, now := 5 })
    ∧ (∃ e ∈ [({ ID := 1, UserID := 7, Amount := .fin 50, Category := "food",
                 CreatedAt := 3 } : Expense),
              { ID := 2, UserID := 7, Amount := .fin 9, Category := "fuel", CreatedAt := 4 }],
        e.ID = 1 ∧ e.UserID = 7 ∧ (3 : Nat) = e.CreatedAt)
    ∧ DeleteExpenseService NewExpenseRepository 1 7
        { expenses := [{ ID := 1, UserID := 7, Amount := .fin 50, Category := "food",
                         CreatedAt := 3 },
                       { ID := 2, UserID := 7, Amount := .fin 9, Category := "fuel",
                         CreatedAt := 4 }], seq := 2, now := 5 }
      = (none, { expenses := [{ ID := 2, UserID := 7, Amount := .fin 9, Category := "fuel",
                                CreatedAt := 4 }], seq := 2, now := 5 })
    ∧ (∃ e ∈ [({ ID := 1, UserID := 7, Amount := .fin 50, Category := "food",
                 CreatedAt := 3 } : Expense),
              { ID := 2, UserID := 7, Amount := .fin 9, Category := "fuel", CreatedAt := 4 }],
        e.ID = 1 ∧ e.UserID = 7) := by
  have hle : Float64.le (.fin 20) Float64.zero = false := by
    norm_num [Float64.le, Float64.zero]
  have hupdate : UpdateExpenseService NewExpenseRepository 1 7
        { Amount := some (.fin 20), Category := none }
        { expenses := [{ ID := 1, UserID := 7, Amount := .fin 50, Category := "food",
                         CreatedAt := 3 },
                       { ID := 2, UserID := 7, Amount := .fin 9, Category := "fuel",
                         CreatedAt := 4 }], seq := 2, now := 5 }
      = (.ok { ID := 1, UserID := 7, Amount := .fin 20, Category := "food", CreatedAt := 3 },
          { expenses := [{ ID := 1, UserID := 7, Amount := .fin 20, Category := "food",
                           CreatedAt := 3 },
                         { ID := 2, UserID := 7, Amount := .fin 9, Category := "fuel",
                           CreatedAt := 4 }], seq := 2, now := 5 }) := by
    simp [UpdateExpenseService, NewExpenseRepository, expenseRepository.GetExpenseByID,
      expenseRepository.UpdateExpense, expenseRepository.setAmountCategory, whereIDAndUser,
      overlayInput, hle]
  have hdelete : DeleteExpenseService NewExpenseRepository 1 7
        { expenses := [{ ID := 1, UserID := 7, Amount := .fin 50, Category := "food",
                         CreatedAt := 3 },
                       { ID := 2, UserID := 7, Amount := .fin 9, Category := "fuel",
                         CreatedAt := 4 }], seq := 2, now := 5 }
      = (none, { expenses := [{ ID := 2, UserID := 7, Amount := .fin 9, Category := "fuel",
                                CreatedAt := 4 }], seq := 2, now := 5 }) := by
    simp [DeleteExpenseService, NewExpenseRepository, expenseRepository.GetExpenseByID,
      expenseRepository.DeleteExpense, whereIDAndUser]
  exact ⟨hupdate,
    ((update_and_delete_frame _ _ 1 7 _ _).1 hupdate).2.2.1,
    hdelete,
    ((update_and_delete_frame _ _ 1 7 { Amount := none, Category := none }
      { ID := 0, UserID := 0, Amount := .nan, Category := "", CreatedAt := 0 }).2 hdelete).1⟩

end ExpenseTracker
